import Mathlib

/-!
Shallow embedding of the Stripe payment/order reconciliation logic of the
Nathan backend (`src/routes/payments.routes.ts` and the parallel payments
router bundled with `src/routes/order.routes.ts`).

Conventions used throughout:
* Monetary amounts are modelled in integer cents (`Int`); the source keeps
  order totals as dollar floats and Stripe amounts as integer cents, and
  converts with `Math.round(total * 100)` / `amount_total / 100`.  The model
  identifies an order's stored total with its cent value, so that comparison
  and conversion are the identity.
* JavaScript truthiness of strings (empty string and `undefined`/`null` are
  falsy) is modelled by `jsTruthyStr`.
* External calls (Stripe session listing, generated order ids, Shippo rate
  lookup and shipment creation, the current wall-clock time) are supplied as
  explicit oracle inputs, so a handler is a pure function of its request, the
  ledger state and the oracles.
* Timestamps are integer milliseconds.
-/

set_option maxRecDepth 4000

namespace NathanBackend

/-- JS truthiness for an optional string: `undefined`/`null` and `""` are
falsy.  `jsTruthyStr s = some v` exactly when the JS value is truthy. -/
def jsTruthyStr (s : Option String) : Option String :=
  match s with
  | some v => if v = "" then none else some v
  | none => none

/-- JS `a || b` for an optional string `a` and an optional string fallback:
returns `a` when truthy, otherwise `b` as-is. -/
def jsOrStr (a : Option String) (b : Option String) : Option String :=
  match jsTruthyStr a with
  | some v => some v
  | none => b

/-- JS `a || ''` for an optional string. -/
def jsOrEmpty (a : Option String) : String :=
  match jsTruthyStr a with
  | some v => v
  | none => ""

/-- A user record (`prisma.user`): only the fields the payment flow reads. -/
structure User where
  id : String
  email : String
deriving DecidableEq, Repr

/-- A structured shipping address as the webhook handlers assemble it
(`{name, email, phone, street1, street2, city, state, zip, country}`).
`name`/`email` can be `undefined` in the source (JS `||` chains over possibly
missing Stripe fields); `street2` is absent entirely in the orders-webhook
reconstruction. -/
structure Addr where
  name : Option String
  email : Option String
  phone : String
  street1 : String
  street2 : Option String
  city : String
  state : String
  zip : String
  country : String
deriving DecidableEq, Repr

/-- `session.customer_details` as read by the handlers (`email`, `name`). -/
structure CustomerDetails where
  email : Option String
  name : Option String
deriving DecidableEq, Repr

/-- `session.shipping` / `session.shipping_details`: the address block Stripe
collected at checkout (`{name, phone, address: {line1, line2, city, state,
postal_code, country}}`, flattened). -/
structure StripeShipping where
  name : Option String
  phone : Option String
  line1 : String
  line2 : Option String
  city : String
  state : String
  postal_code : String
  country : String
deriving DecidableEq, Repr

/-- The order's `shippingAddress` JSON column stores whichever raw object the
handler assigned to it: the Stripe `shipping_details` object, the Stripe
`customer_details` object, or a structured address built by the handler. -/
inductive StoredAddress where
  | fromShipping (a : StripeShipping)
  | fromCustomer (c : CustomerDetails)
  | structured (a : Addr)
deriving DecidableEq, Repr

/-- An order line item (`prisma.orderItem`). -/
structure OrderItem where
  productId : String
  quantity : Int
  price : Int
  total : Int
  flavorIds : List String
  customPackName : Option String
deriving DecidableEq, Repr

/-- An order record (`prisma.order`).  `total` is in cents (see header). -/
structure Order where
  id : String
  userId : String
  status : String
  paymentStatus : String
  total : Int
  shippingAddress : Option StoredAddress
  orderNotes : Option String
  orderItems : List OrderItem
  shipmentId : Option String
  createdAt : Int
  updatedAt : Int
deriving DecidableEq, Repr

/-- The transactional store: orders and users. -/
structure Ledger where
  orders : List Order
  users : List User
deriving DecidableEq, Repr

/-- `prisma.order.findUnique({where: {id}})`. -/
def findOrder (L : Ledger) (oid : String) : Option Order :=
  L.orders.find? (fun o => o.id = oid)

/-- `prisma.user.findUnique({where: {email}})`. -/
def findUserByEmail (L : Ledger) (e : String) : Option User :=
  L.users.find? (fun u => u.email = e)

/-- `prisma.user.findUnique({where: {id}})`. -/
def findUserById (L : Ledger) (uid : String) : Option User :=
  L.users.find? (fun u => u.id = uid)

/-- Apply a field patch to the order with the given id (no existence check). -/
def setOrder (L : Ledger) (oid : String) (f : Order → Order) : Ledger :=
  { L with orders := L.orders.map (fun o => if o.id = oid then f o else o) }

/-- `prisma.order.update({where: {id}, data})`: throws (`.error`) when no
record with that id exists, as Prisma's P2025 does. -/
def updateOrder (L : Ledger) (oid : String) (f : Order → Order) :
    Except Unit Ledger :=
  match findOrder L oid with
  | none => .error ()
  | some _ => .ok (setOrder L oid f)

/-- `prisma.order.create({data})`: appends the new record. -/
def createOrder (L : Ledger) (o : Order) : Ledger :=
  { L with orders := L.orders ++ [o] }

/-- The `address` stub inside the compact metadata payload
(`{name, email, phone, street, city, state, zip, country}`). -/
structure CompressedAddr where
  name : String
  email : String
  phone : String
  street : String
  city : String
  state : String
  zip : String
  country : String
deriving DecidableEq, Repr

/-- One item of the compact metadata payload
(`{pid, qty, price, total, flavors, custom}`). -/
structure CompressedItem where
  pid : String
  qty : Int
  price : Int
  total : Int
  flavors : List String
  custom : Option String
deriving DecidableEq, Repr

/-- The compact order payload the checkout-session builders serialize into
Stripe metadata (`{total, notes, items, address}`); `notes` is omitted from
the JSON when the client sent no order notes, and `address` can be absent in
a payload that did not come from this system's builders. -/
structure CompressedData where
  total : Int
  notes : Option String
  items : List CompressedItem
  address : Option CompressedAddr
deriving DecidableEq, Repr

/-- The `metadata.orderData` string as seen by a webhook handler: either it
parses into a compact payload or `JSON.parse` throws. -/
inductive OrderDataField where
  | parsed (d : CompressedData)
  | malformed
deriving DecidableEq, Repr

/-- A Stripe checkout session as the handlers read it (metadata keys are
flattened into fields; an absent key is `none`). -/
structure CheckoutSession where
  id : String
  payment_intent : Option String
  payment_status : String
  amount_total : Option Int
  customer_details : Option CustomerDetails
  shipping_details : Option StripeShipping
  shipping : Option StripeShipping
  metadata_orderId : Option String
  metadata_isRetry : Option String
  metadata_orderData : Option OrderDataField
  metadata_authenticatedUserId : Option String
  metadata_authenticatedUserEmail : Option String
deriving DecidableEq, Repr

/-- A charge object as read by the `charge.updated` branch. -/
structure ChargeInfo where
  id : String
  payment_intent : Option String
  status : String
  paid : Bool
deriving DecidableEq, Repr

/-- A payment intent as read by the `payment_intent.payment_failed` branch. -/
structure PaymentIntentInfo where
  id : String
  metadata_orderId : Option String
deriving DecidableEq, Repr

/-- A verified Stripe event, keyed on `event.type`. -/
inductive StripeEvent where
  | checkoutSessionCompleted (s : CheckoutSession)
  | paymentIntentPaymentFailed (p : PaymentIntentInfo)
  | chargeUpdated (c : ChargeInfo)
  | other (t : String)
deriving DecidableEq, Repr

/-- One Shippo rate as returned by `getShippingRates`. -/
structure Rate where
  objectId : String
  carrier : String
  serviceName : String
  amount : Int
  estimatedDays : Int
deriving DecidableEq, Repr

/-- One invocation of `createShipment` (the externally visible call). -/
structure ShipmentCall where
  orderId : String
  toAddress : StoredAddress
  rateId : String
deriving DecidableEq, Repr

/-- Outcomes of the external calls a single handler invocation can make,
supplied as explicit inputs: the `stripe.checkout.sessions.list` result, the
database-generated id for a created order, the `getShippingRates` outcome
(`.error` = the call threw), the `createShipment` outcome, and `Date.now()`. -/
structure Oracles where
  sessionsList : List CheckoutSession
  freshOrderId : String
  ratesResult : Except Unit (List Rate)
  createShipmentResult : Except Unit String
  now : Int

/-- What a webhook invocation produced: the HTTP status of the response, the
resulting ledger, and the `createShipment` calls that were issued. -/
structure HandlerResult where
  status : Nat
  ledger : Ledger
  shipmentCalls : List ShipmentCall
deriving DecidableEq, Repr

/-- The inline Shippo section both webhook handlers run inside a
`try { ... } catch (shipmentError) { /- logged, swallowed -/ }` block:
get rates for the fixed default parcel, and when at least one rate comes
back, create a shipment with the first rate (`rates[0].objectId`).
Modelled from the spec: `src/services/shippoService.ts` is not in `src/`;
per spec §4.5 a successful `createShipment` persists the resulting shipment
reference onto the order, and a failed one leaves the ledger untouched.
Every failure path returns the ledger unchanged and never signals an error
to the caller, matching the surrounding catch. -/
def shipmentIdPatch (sid : String) (o : Order) : Order :=
  { o with shipmentId := some sid }

def shippoShipmentSection (L : Ledger) (oid : String) (addr : StoredAddress)
    (orc : Oracles) : Ledger × List ShipmentCall :=
  match orc.ratesResult with
  | .error _ => (L, [])
  | .ok [] => (L, [])
  | .ok (r :: _) =>
    let call : ShipmentCall := { orderId := oid, toAddress := addr, rateId := r.objectId }
    match orc.createShipmentResult with
    | .error _ => (L, [call])
    | .ok sid => (setOrder L oid (shipmentIdPatch sid), [call])

/-- The recurring update `{paymentStatus: "paid", status: "confirmed",
updatedAt: new Date()}`. -/
def paidConfirmedPatch (now : Int) (o : Order) : Order :=
  { o with paymentStatus := "paid", status := "confirmed", updatedAt := now }

/-- The recurring update `{paymentStatus: "failed", updatedAt: new Date()}`. -/
def paymentFailedPatch (now : Int) (o : Order) : Order :=
  { o with paymentStatus := "failed", updatedAt := now }

/-- The `updateData` object the existing-order branch of the `order.routes.ts`
webhook assembles (lines 445–468): always `paymentStatus: "paid"`,
`status: "confirmed"`, `updatedAt: now`; `total` only when the session
reports a truthy amount that differs from
`Math.round(existingOrder.total * 100)`; `shippingAddress` only when the
session carries `shipping_details` or `customer_details`
(`shippingDetails || customerDetails`). -/
def ordersUpdateData (orc : Oracles) (session : CheckoutSession)
    (existingOrder : Order) (o : Order) : Order :=
  let o1 := paidConfirmedPatch orc.now o
  let o2 :=
    match session.amount_total with
    | some amt => if amt ≠ 0 ∧ amt ≠ existingOrder.total then { o1 with total := amt } else o1
    | none => o1
  match session.shipping_details with
  | some sd => { o2 with shippingAddress := some (.fromShipping sd) }
  | none =>
    match session.customer_details with
    | some cd => { o2 with shippingAddress := some (.fromCustomer cd) }
    | none => o2

/-- The `checkout.session.completed` / existing-order branch of the webhook in
`order.routes.ts` (lines 421–530): look the order up (404 when absent), apply
`ordersUpdateData`, and run the Shippo section only when the updated order has
no `shipmentId` and has a shipping address. -/
def ordersExistingOrderBranch (L : Ledger) (orc : Oracles)
    (session : CheckoutSession) (orderId : String) : HandlerResult :=
  match findOrder L orderId with
  | none => { status := 404, ledger := L, shipmentCalls := [] }
  | some existingOrder =>
    let patch : Order → Order := ordersUpdateData orc session existingOrder
    let L1 := setOrder L orderId patch
    let updatedOrder := patch existingOrder
    if updatedOrder.shipmentId = none then
      match updatedOrder.shippingAddress with
      | some addr =>
        let res := shippoShipmentSection L1 updatedOrder.id addr orc
        { status := 200, ledger := res.1, shipmentCalls := res.2 }
      | none => { status := 200, ledger := L1, shipmentCalls := [] }
    else { status := 200, ledger := L1, shipmentCalls := [] }

/-- The `checkout.session.completed` / deferred-creation branch of the webhook
in `order.routes.ts` (lines 531–673): parse `metadata.orderData` (400 when it
does not parse), require a customer email on the session (400), resolve the
owning user by that email (404 when no user matches), materialize the order
as `confirmed`/`paid` with a structured address rebuilt from the compact
payload, then run the Shippo section and answer 200.  An absent `address` in
the payload makes the reconstruction throw inside the same `try`, which the
`parseError` catch turns into the 400 response. -/
def ordersDeferredBranch (L : Ledger) (orc : Oracles)
    (session : CheckoutSession) (d : CompressedData) : HandlerResult :=
  match jsTruthyStr (session.customer_details.bind (fun c => c.email)) with
  | none => { status := 400, ledger := L, shipmentCalls := [] }
  | some customerEmail =>
    match findUserByEmail L customerEmail with
    | none => { status := 404, ledger := L, shipmentCalls := [] }
    | some user =>
      match d.address with
      | none => { status := 400, ledger := L, shipmentCalls := [] }
      | some a =>
        let shippingAddress : StoredAddress := .structured {
          name := some a.name, email := some a.email, phone := a.phone,
          street1 := a.street, street2 := none,
          city := a.city, state := a.state, zip := a.zip, country := a.country }
        let newOrder : Order := {
          id := orc.freshOrderId, userId := user.id,
          status := "confirmed", paymentStatus := "paid",
          total := d.total,
          shippingAddress := some shippingAddress,
          orderNotes := d.notes,
          orderItems := d.items.map (fun it =>
            { productId := it.pid, quantity := it.qty, price := it.price,
              total := it.total, flavorIds := it.flavors,
              customPackName := jsTruthyStr it.custom }),
          shipmentId := none, createdAt := orc.now, updatedAt := orc.now }
        let L1 := createOrder L newOrder
        let res := shippoShipmentSection L1 newOrder.id shippingAddress orc
        { status := 200, ledger := res.1, shipmentCalls := res.2 }

/-- The event dispatch of the webhook handler in `order.routes.ts`
(lines 402–787), after signature verification succeeded. -/
def handleOrdersEvent (L : Ledger) (orc : Oracles) : StripeEvent → HandlerResult
  | .checkoutSessionCompleted session =>
    match jsTruthyStr session.metadata_orderId with
    | some orderId => ordersExistingOrderBranch L orc session orderId
    | none =>
      match session.metadata_orderData with
      | some (.parsed d) => ordersDeferredBranch L orc session d
      | some .malformed => { status := 400, ledger := L, shipmentCalls := [] }
      | none => { status := 400, ledger := L, shipmentCalls := [] }
  | .paymentIntentPaymentFailed pi =>
    match jsTruthyStr pi.metadata_orderId with
    | some oid =>
      match updateOrder L oid (paymentFailedPatch orc.now) with
      | .ok L1 => { status := 200, ledger := L1, shipmentCalls := [] }
      | .error _ => { status := 200, ledger := L, shipmentCalls := [] }
    | none => { status := 200, ledger := L, shipmentCalls := [] }
  | .chargeUpdated charge =>
    match jsTruthyStr charge.payment_intent with
    | none => { status := 200, ledger := L, shipmentCalls := [] }
    | some piId =>
      match orc.sessionsList.find? (fun s => s.payment_intent = some piId) with
      | none => { status := 200, ledger := L, shipmentCalls := [] }
      | some s =>
        match jsTruthyStr s.metadata_orderId with
        | none => { status := 200, ledger := L, shipmentCalls := [] }
        | some oid =>
          if charge.status = "succeeded" ∧ charge.paid then
            match updateOrder L oid (paidConfirmedPatch orc.now) with
            | .ok L1 => { status := 200, ledger := L1, shipmentCalls := [] }
            | .error _ => { status := 500, ledger := L, shipmentCalls := [] }
          else { status := 200, ledger := L, shipmentCalls := [] }
  | .other _ => { status := 200, ledger := L, shipmentCalls := [] }

/-- The `checkout.session.completed` / existing-order branch of the webhook in
`payments.routes.ts` (lines 88–164): update the order to `paid`/`confirmed`
unconditionally — an unknown order id makes `prisma.order.update` throw,
which the handler's outer catch turns into a 500 — then re-read the order and
run the Shippo section whenever it has a shipping address (no `shipmentId`
guard in this router). -/
def paymentsExistingOrderBranch (L : Ledger) (orc : Oracles)
    (orderId : String) : HandlerResult :=
  match updateOrder L orderId (paidConfirmedPatch orc.now) with
  | .error _ => { status := 500, ledger := L, shipmentCalls := [] }
  | .ok L1 =>
    match findOrder L1 orderId with
    | some updatedOrder =>
      match updatedOrder.shippingAddress with
      | some addr =>
        let res := shippoShipmentSection L1 updatedOrder.id addr orc
        { status := 200, ledger := res.1, shipmentCalls := res.2 }
      | none => { status := 200, ledger := L1, shipmentCalls := [] }
    | none => { status := 200, ledger := L1, shipmentCalls := [] }

/-- The order record the payments-router deferred branch creates: owned by
the authenticated user, `confirmed`/`paid` from the start, fields rebuilt
from the compact payload, with a database-generated id. -/
def paymentsDeferredOrder (orc : Oracles) (user : User) (d : CompressedData)
    (shippingAddress : StoredAddress) : Order :=
  { id := orc.freshOrderId, userId := user.id,
    status := "confirmed", paymentStatus := "paid",
    total := d.total,
    shippingAddress := some shippingAddress,
    orderNotes := d.notes,
    orderItems := d.items.map (fun it =>
      { productId := it.pid, quantity := it.qty, price := it.price,
        total := it.total, flavorIds := it.flavors,
        customPackName := jsTruthyStr it.custom }),
    shipmentId := none, createdAt := orc.now, updatedAt := orc.now }

/-- The `checkout.session.completed` / deferred-creation branch of the webhook
in `payments.routes.ts` (lines 165–336): parse `metadata.orderData` (a parse
failure reaches the branch's own catch, responding 500), require
`metadata.authenticatedUserId` (400 when missing), resolve the owning user by
that id (404 when unknown), choose the shipping address — the Stripe-collected
`session.shipping` block when present, else the address stub from the compact
payload, else 400 — materialize the order as `confirmed`/`paid`, and run the
Shippo section.  The branch does not return early on success, so the handler
answers 200. -/
def paymentsDeferredBranch (L : Ledger) (orc : Oracles)
    (session : CheckoutSession) (d : CompressedData) : HandlerResult :=
  match jsTruthyStr session.metadata_authenticatedUserId with
  | none => { status := 400, ledger := L, shipmentCalls := [] }
  | some authenticatedUserId =>
    match findUserById L authenticatedUserId with
    | none => { status := 404, ledger := L, shipmentCalls := [] }
    | some user =>
      let stripeEmail : Option String :=
        jsOrStr (session.customer_details.bind (fun c => c.email))
          (d.address.map (fun a => a.email))
      let stripeName : Option String :=
        jsOrStr (session.customer_details.bind (fun c => c.name))
          (d.address.map (fun a => a.name))
      let shippingAddress? : Option StoredAddress :=
        match session.shipping with
        | some sh => some (.structured {
            name := jsOrStr sh.name stripeName,
            email := stripeEmail,
            phone := jsOrEmpty sh.phone,
            street1 := sh.line1,
            street2 := some (jsOrEmpty sh.line2),
            city := sh.city, state := sh.state,
            zip := sh.postal_code, country := sh.country })
        | none =>
          match d.address with
          | some a => some (.structured {
              name := stripeName,
              email := stripeEmail,
              phone := a.phone,
              street1 := a.street,
              street2 := some "",
              city := a.city, state := a.state,
              zip := a.zip, country := a.country })
          | none => none
      match shippingAddress? with
      | none => { status := 400, ledger := L, shipmentCalls := [] }
      | some shippingAddress =>
        let newOrder := paymentsDeferredOrder orc user d shippingAddress
        let L1 := createOrder L newOrder
        let res := shippoShipmentSection L1 newOrder.id shippingAddress orc
        { status := 200, ledger := res.1, shipmentCalls := res.2 }

/-- The event dispatch of the webhook handler in `payments.routes.ts`
(lines 72–416), after signature verification succeeded.  Unlike the
orders-router webhook, a `checkout.session.completed` without any order
metadata falls through to the 200 response, and there is no
`payment_intent.payment_failed` branch at all. -/
def handlePaymentsEvent (L : Ledger) (orc : Oracles) : StripeEvent → HandlerResult
  | .checkoutSessionCompleted session =>
    match jsTruthyStr session.metadata_orderId with
    | some orderId => paymentsExistingOrderBranch L orc orderId
    | none =>
      match session.metadata_orderData with
      | some (.parsed d) => paymentsDeferredBranch L orc session d
      | some .malformed => { status := 500, ledger := L, shipmentCalls := [] }
      | none => { status := 200, ledger := L, shipmentCalls := [] }
  | .chargeUpdated charge =>
    match jsTruthyStr charge.payment_intent with
    | none => { status := 200, ledger := L, shipmentCalls := [] }
    | some piId =>
      match orc.sessionsList.find? (fun s => s.payment_intent = some piId) with
      | none => { status := 200, ledger := L, shipmentCalls := [] }
      | some s =>
        match jsTruthyStr s.metadata_orderId with
        | none => { status := 200, ledger := L, shipmentCalls := [] }
        | some oid =>
          if charge.status = "succeeded" ∧ charge.paid then
            match updateOrder L oid (paidConfirmedPatch orc.now) with
            | .ok L1 => { status := 200, ledger := L1, shipmentCalls := [] }
            | .error _ => { status := 500, ledger := L, shipmentCalls := [] }
          else { status := 200, ledger := L, shipmentCalls := [] }
  | .paymentIntentPaymentFailed _ => { status := 200, ledger := L, shipmentCalls := [] }
  | .other _ => { status := 200, ledger := L, shipmentCalls := [] }

/-- The environment both routers read: `STRIPE_SECRET_KEY` (via `getStripe`)
and `STRIPE_WEBHOOK_SECRET`. -/
structure Env where
  stripeSecretKey : Option String
  webhookSecret : Option String
deriving DecidableEq, Repr

/-- An inbound webhook request: the `stripe-signature` header and the raw
body bytes. -/
structure WebhookRequest where
  sigHeader : Option String
  rawBody : String
deriving DecidableEq, Repr

/-- The verification-and-dispatch pipeline shared verbatim by both webhook
handlers: 503 when Stripe is not configured, 400 when the signature header or
the configured secret is missing, 400 when `stripe.webhooks.constructEvent`
throws on the raw body, and only then the event dispatch.  `verify` is the
injected `constructEvent` (raw body, signature header, secret). -/
def webhookGate (process : Ledger → Oracles → StripeEvent → HandlerResult)
    (env : Env) (req : WebhookRequest)
    (verify : String → String → String → Option StripeEvent)
    (L : Ledger) (orc : Oracles) : HandlerResult :=
  if (jsTruthyStr env.stripeSecretKey).isNone then
    { status := 503, ledger := L, shipmentCalls := [] }
  else
    match jsTruthyStr req.sigHeader, jsTruthyStr env.webhookSecret with
    | some sig, some secret =>
      match verify req.rawBody sig secret with
      | some event => process L orc event
      | none => { status := 400, ledger := L, shipmentCalls := [] }
    | _, _ => { status := 400, ledger := L, shipmentCalls := [] }

/-- The full webhook handler of `order.routes.ts` (lines 326–787). -/
def ordersWebhook (env : Env) (req : WebhookRequest)
    (verify : String → String → String → Option StripeEvent)
    (L : Ledger) (orc : Oracles) : HandlerResult :=
  webhookGate handleOrdersEvent env req verify L orc

/-- The full webhook handler of `payments.routes.ts` (lines 17–416). -/
def paymentsWebhook (env : Env) (req : WebhookRequest)
    (verify : String → String → String → Option StripeEvent)
    (L : Ledger) (orc : Oracles) : HandlerResult :=
  webhookGate handlePaymentsEvent env req verify L orc

/-- The update `/retry-payment` applies after creating the new session:
`{paymentStatus: "pending", updatedAt: new Date()}`. -/
def retryPendingPatch (now : Int) (o : Order) : Order :=
  { o with paymentStatus := "pending", updatedAt := now }

/-- Result of the `/retry-payment` endpoint: HTTP status and ledger. -/
structure RetryResult where
  status : Nat
  ledger : Ledger
deriving DecidableEq, Repr

/-- The `/retry-payment` handler bundled with `order.routes.ts`
(lines 138–227): 503 without Stripe, 400 without an order id, 404 when the
order is unknown, 400 when its `paymentStatus` is not `"failed"`; otherwise
create a fresh checkout session (a throwing `sessions.create` reaches the
catch, responding 500 with the order untouched) and then reset the order's
`paymentStatus` to `"pending"`. -/
def retryPayment (env : Env) (orderId? : Option String)
    (sessionsCreate : Except Unit String) (L : Ledger) (now : Int) : RetryResult :=
  if (jsTruthyStr env.stripeSecretKey).isNone then { status := 503, ledger := L }
  else
    match jsTruthyStr orderId? with
    | none => { status := 400, ledger := L }
    | some orderId =>
      match findOrder L orderId with
      | none => { status := 404, ledger := L }
      | some order =>
        if order.paymentStatus ≠ "failed" then { status := 400, ledger := L }
        else
          match sessionsCreate with
          | .error _ => { status := 500, ledger := L }
          | .ok _ =>
            { status := 200,
              ledger := setOrder L orderId (retryPendingPatch now) }

/-- `JSON.stringify` escaping for one character; the payload strings of this
system are plain text, so only the backslash and the double quote need
escaping. -/
def jsonEscapeChar (c : Char) : String :=
  if c = '\\' then "\\\\"
  else if c = '"' then "\\\""
  else String.singleton c

/-- `JSON.stringify` escaping for a string body. -/
def jsonEscape (s : String) : String :=
  String.join (s.toList.map jsonEscapeChar)

/-- A JSON string literal. -/
def jsonStr (s : String) : String :=
  "\"" ++ jsonEscape s ++ "\""

/-- `JSON.stringify` of one compact item, with the key order the builder uses
(`pid, qty, price, total, flavors, custom`); a `null` custom pack serializes
as `null`. -/
def serializeCompressedItem (it : CompressedItem) : String :=
  "\x7b\"pid\":" ++ jsonStr it.pid ++
  ",\"qty\":" ++ toString it.qty ++
  ",\"price\":" ++ toString it.price ++
  ",\"total\":" ++ toString it.total ++
  ",\"flavors\":[" ++ String.intercalate "," (it.flavors.map jsonStr) ++
  "],\"custom\":" ++ (match it.custom with | some c => jsonStr c | none => "null") ++
  "\x7d"

/-- `JSON.stringify` of the address stub, in builder key order. -/
def serializeCompressedAddr (a : CompressedAddr) : String :=
  "\x7b\"name\":" ++ jsonStr a.name ++
  ",\"email\":" ++ jsonStr a.email ++
  ",\"phone\":" ++ jsonStr a.phone ++
  ",\"street\":" ++ jsonStr a.street ++
  ",\"city\":" ++ jsonStr a.city ++
  ",\"state\":" ++ jsonStr a.state ++
  ",\"zip\":" ++ jsonStr a.zip ++
  ",\"country\":" ++ jsonStr a.country ++
  "\x7d"

/-- `JSON.stringify` of the compact payload (`{total, notes, items, address}`
in insertion order); an `undefined` value makes `JSON.stringify` drop the
key, which is how an absent `notes` or `address` serializes. -/
def serializeCompressedData (d : CompressedData) : String :=
  "\x7b\"total\":" ++ toString d.total ++
  (match d.notes with | some n => ",\"notes\":" ++ jsonStr n | none => "") ++
  ",\"items\":[" ++ String.intercalate "," (d.items.map serializeCompressedItem) ++
  "]" ++
  (match d.address with | some a => ",\"address\":" ++ serializeCompressedAddr a | none => "") ++
  "\x7d"

/-- One item of the client-supplied `orderData.orderItems`. -/
structure OrderPayloadItem where
  productId : String
  quantity : Int
  price : Int
  total : Int
  flavorIds : Option (List String)
  customPackName : Option String
deriving DecidableEq, Repr

/-- The client-supplied `orderData` body field of
`/create-checkout-session`. -/
structure OrderPayload where
  total : Int
  orderNotes : Option String
  orderItems : List OrderPayloadItem
  shippingAddress : Option CompressedAddr
deriving DecidableEq, Repr

/-- The request body of `/create-checkout-session` (the cart `items` are only
inspected for presence and mapped to Stripe line items, which the modelled
outputs do not depend on, so only their count is kept). -/
structure CheckoutBody where
  orderId : Option String
  orderData : Option OrderPayload
  itemsCount : Option Nat
deriving DecidableEq, Repr

/-- The compact payload the `payments.routes.ts` builder assembles
(lines 480–502): items remapped to short keys, `flavors` defaulted to `[]`,
`custom` defaulted to `null`, and the address stub taken from the client or
an all-empty fallback. -/
def compressOrderData (od : OrderPayload) : CompressedData :=
  { total := od.total,
    notes := od.orderNotes,
    items := od.orderItems.map (fun it =>
      { pid := it.productId, qty := it.quantity, price := it.price,
        total := it.total, flavors := it.flavorIds.getD [],
        custom := jsTruthyStr it.customPackName }),
    address := some (od.shippingAddress.getD
      { name := "", email := "", phone := "", street := "",
        city := "", state := "", zip := "", country := "" }) }

/-- Outcome of `/create-checkout-session`: HTTP status, whether
`stripe.checkout.sessions.create` was invoked, and the metadata handed to
it. -/
structure CreateSessionOutcome where
  status : Nat
  stripeCalled : Bool
  metadata_orderId : Option String
  metadata_orderData : Option String
deriving DecidableEq, Repr

/-- The `/create-checkout-session` handler of `payments.routes.ts`
(lines 426–543): 503 without Stripe, 404 when the authenticated user has no
database record, 400 without cart items; with an `orderId` the metadata
references the existing order; with `orderData` the compact payload is
serialized and rejected with 400 — before any Stripe call — when its
serialized length exceeds 500; otherwise the session is created (a throwing
`sessions.create` reaches the catch, responding 500). -/
def createCheckoutSession (env : Env) (L : Ledger) (authUserId : String)
    (body : CheckoutBody) (sessionsCreate : Except Unit String) :
    CreateSessionOutcome :=
  if (jsTruthyStr env.stripeSecretKey).isNone then
    { status := 503, stripeCalled := false,
      metadata_orderId := none, metadata_orderData := none }
  else
    match findUserById L authUserId with
    | none => { status := 404, stripeCalled := false,
                metadata_orderId := none, metadata_orderData := none }
    | some _ =>
      match body.itemsCount with
      | none => { status := 400, stripeCalled := false,
                  metadata_orderId := none, metadata_orderData := none }
      | some 0 => { status := 400, stripeCalled := false,
                    metadata_orderId := none, metadata_orderData := none }
      | some (_ + 1) =>
        let finish : Option String → Option String → CreateSessionOutcome :=
          fun moid modata =>
            match sessionsCreate with
            | .error _ => { status := 500, stripeCalled := true,
                            metadata_orderId := moid, metadata_orderData := modata }
            | .ok _ => { status := 200, stripeCalled := true,
                         metadata_orderId := moid, metadata_orderData := modata }
        match jsTruthyStr body.orderId with
        | some oid => finish (some oid) none
        | none =>
          match body.orderData with
          | some od =>
            let dataString := serializeCompressedData (compressOrderData od)
            if dataString.length > 500 then
              { status := 400, stripeCalled := false,
                metadata_orderId := none, metadata_orderData := none }
            else finish none (some dataString)
          | none => finish none none

/-- The three counters of the `/fix-payment-status` sweep. -/
structure SweepCounts where
  fixedCount : Nat
  failedCount : Nat
  noSessionCount : Nat
deriving DecidableEq, Repr

/-- The per-order loop of `/fix-payment-status` (`order.routes.ts`
lines 911–980): find the checkout session whose `metadata.orderId` matches;
with no session, mark the order failed when it is older than 24 hours and
otherwise leave it pending; with a `paid` session mark it `paid`/`confirmed`;
with an `unpaid` session mark it failed; with any other session status leave
it pending. -/
def fixPaymentStatusLoop (sessions : List CheckoutSession) (now : Int) :
    List Order → Ledger → SweepCounts → Ledger × SweepCounts
  | [], L, c => (L, c)
  | order :: rest, L, c =>
    match sessions.find? (fun s => s.metadata_orderId = some order.id) with
    | none =>
      if order.createdAt < now - 24 * 60 * 60 * 1000 then
        fixPaymentStatusLoop sessions now rest
          (setOrder L order.id (paymentFailedPatch now))
          { c with failedCount := c.failedCount + 1 }
      else
        fixPaymentStatusLoop sessions now rest L
          { c with noSessionCount := c.noSessionCount + 1 }
    | some orderSession =>
      if orderSession.payment_status = "paid" then
        fixPaymentStatusLoop sessions now rest
          (setOrder L order.id (paidConfirmedPatch now))
          { c with fixedCount := c.fixedCount + 1 }
      else if orderSession.payment_status = "unpaid" then
        fixPaymentStatusLoop sessions now rest
          (setOrder L order.id (paymentFailedPatch now))
          { c with failedCount := c.failedCount + 1 }
      else
        fixPaymentStatusLoop sessions now rest L
          { c with noSessionCount := c.noSessionCount + 1 }

/-- The `/fix-payment-status` sweep (`order.routes.ts` lines 875–1000): take
a snapshot of all orders with `paymentStatus = "pending"` and run the loop
over it.  (The source orders the snapshot by `createdAt desc`, which only
affects log output; the loop itself is order-insensitive on ledgers with
unique order ids.) -/
def fixPaymentStatus (sessions : List CheckoutSession) (now : Int)
    (L : Ledger) : Ledger × SweepCounts :=
  let pendingOrders := L.orders.filter (fun o => o.paymentStatus = "pending")
  fixPaymentStatusLoop sessions now pendingOrders L
    { fixedCount := 0, failedCount := 0, noSessionCount := 0 }

/-- The three possible sweep actions of the drift-sweep decision table. -/
inductive SweepDecision where
  | markPaid
  | markFailed
  | leavePending
deriving DecidableEq, Repr

/-- The drift-sweep decision table as the spec states it (§4.6), written as a
function of the session list, the current time and the order alone: no
matching session and age over 24 hours ⇒ mark failed; no matching session and
age at most 24 hours ⇒ leave pending; matching `paid` session ⇒ mark
paid/confirmed; matching `unpaid` session ⇒ mark failed; any other session
status ⇒ leave pending. -/
def sweepSpecDecision (sessions : List CheckoutSession) (now : Int)
    (o : Order) : SweepDecision :=
  match sessions.find? (fun s => s.metadata_orderId = some o.id) with
  | none =>
    if o.createdAt < now - 24 * 60 * 60 * 1000 then .markFailed else .leavePending
  | some s =>
    if s.payment_status = "paid" then .markPaid
    else if s.payment_status = "unpaid" then .markFailed
    else .leavePending

/-- The order update each decision entails. -/
def sweepSpecApply (sessions : List CheckoutSession) (now : Int)
    (o : Order) : Order :=
  match sweepSpecDecision sessions now o with
  | .markPaid => paidConfirmedPatch now o
  | .markFailed => paymentFailedPatch now o
  | .leavePending => o

/-! ### Basic lemmas about the ledger operations -/

theorem findOrder_eq_some_id {L : Ledger} {oid : String} {O : Order}
    (h : findOrder L oid = some O) : O.id = oid := by
  have := List.find?_some h
  exact of_decide_eq_true this

theorem find?_map_ite_self (l : List Order) (oid : String) (f : Order → Order)
    (hf : ∀ o, (f o).id = o.id) :
    (l.map (fun o => if o.id = oid then f o else o)).find? (fun o => o.id = oid)
      = (l.find? (fun o => o.id = oid)).map f := by
  induction l with
  | nil => rfl
  | cons a l ih =>
    by_cases h : a.id = oid
    · simp [List.find?_cons, h, hf a]
    · simp [List.find?_cons, h, ih]

theorem find?_map_ite_ne (l : List Order) (oid oid' : String) (f : Order → Order)
    (hf : ∀ o, (f o).id = o.id) (h : oid' ≠ oid) :
    (l.map (fun o => if o.id = oid then f o else o)).find? (fun o => o.id = oid')
      = l.find? (fun o => o.id = oid') := by
  induction l with
  | nil => rfl
  | cons a l ih =>
    by_cases ha : a.id = oid
    · have hne : a.id ≠ oid' := fun hc => h (hc ▸ ha)
      have hne' : (f a).id ≠ oid' := by rw [hf a]; exact hne
      simp only [List.map_cons, List.find?_cons, if_pos ha,
        decide_eq_false hne', decide_eq_false hne]
      exact ih
    · by_cases ha' : a.id = oid'
      · simp only [List.map_cons, List.find?_cons, if_neg ha, decide_eq_true ha']
      · simp only [List.map_cons, List.find?_cons, if_neg ha, decide_eq_false ha']
        exact ih

theorem findOrder_setOrder_self (L : Ledger) (oid : String) (f : Order → Order)
    (hf : ∀ o, (f o).id = o.id) :
    findOrder (setOrder L oid f) oid = (findOrder L oid).map f :=
  find?_map_ite_self L.orders oid f hf

theorem findOrder_setOrder_ne (L : Ledger) (oid oid' : String) (f : Order → Order)
    (hf : ∀ o, (f o).id = o.id) (h : oid' ≠ oid) :
    findOrder (setOrder L oid f) oid' = findOrder L oid' :=
  find?_map_ite_ne L.orders oid oid' f hf h

theorem setOrder_users (L : Ledger) (oid : String) (f : Order → Order) :
    (setOrder L oid f).users = L.users := rfl

theorem find?_of_mem_nodup {l : List Order} {o : Order}
    (hnd : (l.map Order.id).Nodup) (hm : o ∈ l) :
    l.find? (fun x => x.id = o.id) = some o := by
  induction l with
  | nil => cases hm
  | cons a l ih =>
    rcases List.mem_cons.mp hm with rfl | hm'
    · simp [List.find?_cons]
    · have hnd' : (l.map Order.id).Nodup := (List.nodup_cons.mp hnd).2
      have hne : a.id ≠ o.id := by
        intro hc
        exact (List.nodup_cons.mp hnd).1 (hc ▸ List.mem_map_of_mem Order.id hm')
      simp [List.find?_cons, hne, ih hnd' hm']

theorem findOrder_of_mem_nodup {L : Ledger} {o : Order}
    (hnd : (L.orders.map Order.id).Nodup) (hm : o ∈ L.orders) :
    findOrder L o.id = some o :=
  find?_of_mem_nodup hnd hm

theorem find?_append_single_of_none {o : Order} :
    ∀ l : List Order, l.find? (fun x => x.id = o.id) = none →
      (l ++ [o]).find? (fun x => x.id = o.id) = some o := by
  intro l
  induction l with
  | nil => intro _; simp [List.find?_cons]
  | cons a l ih =>
    intro hl
    by_cases ha : a.id = o.id
    · simp [List.find?_cons, decide_eq_true ha] at hl
    · simp only [List.find?_cons, decide_eq_false ha] at hl
      simpa [List.find?_cons, decide_eq_false ha] using ih hl

theorem findOrder_createOrder_of_fresh {L : Ledger} {o : Order}
    (h : findOrder L o.id = none) :
    findOrder (createOrder L o) o.id = some o :=
  find?_append_single_of_none L.orders h

/-- One step of the sweep loop, re-expressed through the spec's decision
table: the head order's ledger update and counter increment are exactly what
its `sweepSpecDecision` prescribes. -/
theorem fixLoop_step (sessions : List CheckoutSession) (now : Int)
    (a : Order) (rest : List Order) (L : Ledger) (c : SweepCounts) :
    fixPaymentStatusLoop sessions now (a :: rest) L c
      = fixPaymentStatusLoop sessions now rest
          (match sweepSpecDecision sessions now a with
           | .markPaid => setOrder L a.id (paidConfirmedPatch now)
           | .markFailed => setOrder L a.id (paymentFailedPatch now)
           | .leavePending => L)
          (match sweepSpecDecision sessions now a with
           | .markPaid => ⟨c.fixedCount + 1, c.failedCount, c.noSessionCount⟩
           | .markFailed => ⟨c.fixedCount, c.failedCount + 1, c.noSessionCount⟩
           | .leavePending => ⟨c.fixedCount, c.failedCount, c.noSessionCount + 1⟩) := by
  conv_lhs => rw [fixPaymentStatusLoop]
  cases hfind : sessions.find? (fun s => s.metadata_orderId = some a.id) with
  | none =>
    have hd : sweepSpecDecision sessions now a
        = (if a.createdAt < now - 24 * 60 * 60 * 1000 then
            SweepDecision.markFailed else SweepDecision.leavePending) := by
      unfold sweepSpecDecision
      rw [hfind]
    rw [hd]
    by_cases hage : a.createdAt < now - 24 * 60 * 60 * 1000
    · rw [if_pos hage, if_pos hage]
    · rw [if_neg hage, if_neg hage]
  | some s =>
    have hd : sweepSpecDecision sessions now a
        = (if s.payment_status = "paid" then SweepDecision.markPaid
           else if s.payment_status = "unpaid" then SweepDecision.markFailed
           else SweepDecision.leavePending) := by
      unfold sweepSpecDecision
      rw [hfind]
    rw [hd]
    dsimp only
    by_cases hp : s.payment_status = "paid"
    · rw [if_pos hp, if_pos hp]
    · rw [if_neg hp, if_neg hp]
      by_cases hu : s.payment_status = "unpaid"
      · rw [if_pos hu, if_pos hu]
      · rw [if_neg hu, if_neg hu]

/-- The sweep-loop counters equal the starting counters plus, for each
decision, the number of snapshot orders the spec table sends there. -/
theorem fixLoop_counts (sessions : List CheckoutSession) (now : Int) :
    ∀ (os : List Order) (L : Ledger) (c : SweepCounts),
    (fixPaymentStatusLoop sessions now os L c).2.fixedCount
      = c.fixedCount
        + os.countP (fun o => sweepSpecDecision sessions now o = SweepDecision.markPaid) ∧
    (fixPaymentStatusLoop sessions now os L c).2.failedCount
      = c.failedCount
        + os.countP (fun o => sweepSpecDecision sessions now o = SweepDecision.markFailed) ∧
    (fixPaymentStatusLoop sessions now os L c).2.noSessionCount
      = c.noSessionCount
        + os.countP (fun o => sweepSpecDecision sessions now o = SweepDecision.leavePending) := by
  intro os
  induction os with
  | nil => intro L c; simp [fixPaymentStatusLoop]
  | cons a rest ih =>
    intro L c
    rw [fixLoop_step]
    cases hdec : sweepSpecDecision sessions now a with
    | markPaid =>
      obtain ⟨h1, h2, h3⟩ := ih (setOrder L a.id (paidConfirmedPatch now))
        ⟨c.fixedCount + 1, c.failedCount, c.noSessionCount⟩
      refine ⟨?_, ?_, ?_⟩ <;>
        simp [h1, h2, h3, List.countP_cons, hdec, Nat.add_assoc,
          Nat.add_left_comm, Nat.add_comm]
    | markFailed =>
      obtain ⟨h1, h2, h3⟩ := ih (setOrder L a.id (paymentFailedPatch now))
        ⟨c.fixedCount, c.failedCount + 1, c.noSessionCount⟩
      refine ⟨?_, ?_, ?_⟩ <;>
        simp [h1, h2, h3, List.countP_cons, hdec, Nat.add_assoc,
          Nat.add_left_comm, Nat.add_comm]
    | leavePending =>
      obtain ⟨h1, h2, h3⟩ := ih L
        ⟨c.fixedCount, c.failedCount, c.noSessionCount + 1⟩
      refine ⟨?_, ?_, ?_⟩ <;>
        simp [h1, h2, h3, List.countP_cons, hdec, Nat.add_assoc,
          Nat.add_left_comm, Nat.add_comm]

/-- The sweep loop touches only orders whose ids occur in its snapshot. -/
theorem fixLoop_findOrder_not_mem (sessions : List CheckoutSession) (now : Int) :
    ∀ (os : List Order) (L : Ledger) (c : SweepCounts) (oid : String),
    (∀ o ∈ os, o.id ≠ oid) →
    findOrder (fixPaymentStatusLoop sessions now os L c).1 oid = findOrder L oid := by
  intro os
  induction os with
  | nil => intro L c oid _; rfl
  | cons a rest ih =>
    intro L c oid hne
    rw [fixLoop_step]
    have hna : oid ≠ a.id := (hne a (List.mem_cons_self a rest)).symm
    have hrest : ∀ o ∈ rest, o.id ≠ oid := fun o hm => hne o (List.mem_cons_of_mem a hm)
    cases hdec : sweepSpecDecision sessions now a with
    | markPaid =>
      rw [ih (setOrder L a.id (paidConfirmedPatch now)) _ oid hrest]
      exact findOrder_setOrder_ne L a.id oid _ (fun _ => rfl) hna
    | markFailed =>
      rw [ih (setOrder L a.id (paymentFailedPatch now)) _ oid hrest]
      exact findOrder_setOrder_ne L a.id oid _ (fun _ => rfl) hna
    | leavePending =>
      exact ih L _ oid hrest

/-- The sweep loop never touches the user table. -/
theorem fixLoop_users (sessions : List CheckoutSession) (now : Int) :
    ∀ (os : List Order) (L : Ledger) (c : SweepCounts),
    (fixPaymentStatusLoop sessions now os L c).1.users = L.users := by
  intro os
  induction os with
  | nil => intro L c; rfl
  | cons a rest ih =>
    intro L c
    rw [fixLoop_step]
    cases hdec : sweepSpecDecision sessions now a with
    | markPaid => exact ih (setOrder L a.id (paidConfirmedPatch now)) _
    | markFailed => exact ih (setOrder L a.id (paymentFailedPatch now)) _
    | leavePending => exact ih L _

/-- Each snapshot order ends the sweep loop in exactly the state the spec's
decision table prescribes for it (snapshot ids distinct, snapshot orders
present in the ledger). -/
theorem fixLoop_findOrder_mem (sessions : List CheckoutSession) (now : Int) :
    ∀ (os : List Order) (L : Ledger) (c : SweepCounts),
    (os.map Order.id).Nodup →
    (∀ o ∈ os, findOrder L o.id = some o) →
    ∀ o ∈ os, findOrder (fixPaymentStatusLoop sessions now os L c).1 o.id
      = some (sweepSpecApply sessions now o) := by
  intro os
  induction os with
  | nil => intro L c _ _ o hm; cases hm
  | cons a rest ih =>
    intro L c hnd hfd o hm
    rw [List.map_cons, List.nodup_cons] at hnd
    obtain ⟨hanotin, hndr⟩ := hnd
    have hrestne : ∀ r ∈ rest, r.id ≠ a.id := by
      intro r hr hc
      exact hanotin (hc ▸ List.mem_map_of_mem Order.id hr)
    rw [fixLoop_step]
    have happ : ∀ (p : Int → Order → Order), (∀ x, (p now x).id = x.id) →
        findOrder (setOrder L a.id (p now)) a.id = some (p now a) := by
      intro p hid
      rw [findOrder_setOrder_self L a.id _ hid, hfd a (List.mem_cons_self a rest),
        Option.map_some']
    have hfdr : ∀ (p : Int → Order → Order), (∀ x, (p now x).id = x.id) →
        ∀ r ∈ rest, findOrder (setOrder L a.id (p now)) r.id = some r := by
      intro p hid r hr
      rw [findOrder_setOrder_ne L a.id r.id _ hid (hrestne r hr)]
      exact hfd r (List.mem_cons_of_mem a hr)
    rcases List.mem_cons.mp hm with rfl | hm'
    · cases hdec : sweepSpecDecision sessions now o with
      | markPaid =>
        rw [fixLoop_findOrder_not_mem sessions now rest _ _ o.id hrestne,
          happ paidConfirmedPatch (fun _ => rfl)]
        unfold sweepSpecApply
        rw [hdec]
      | markFailed =>
        rw [fixLoop_findOrder_not_mem sessions now rest _ _ o.id hrestne,
          happ paymentFailedPatch (fun _ => rfl)]
        unfold sweepSpecApply
        rw [hdec]
      | leavePending =>
        rw [fixLoop_findOrder_not_mem sessions now rest _ _ o.id hrestne]
        unfold sweepSpecApply
        rw [hdec]
        exact hfd o (List.mem_cons_self o rest)
    · cases hdec : sweepSpecDecision sessions now a with
      | markPaid =>
        exact ih (setOrder L a.id (paidConfirmedPatch now)) _ hndr
          (hfdr paidConfirmedPatch (fun _ => rfl)) o hm'
      | markFailed =>
        exact ih (setOrder L a.id (paymentFailedPatch now)) _ hndr
          (hfdr paymentFailedPatch (fun _ => rfl)) o hm'
      | leavePending =>
        exact ih L _ hndr (fun r hr => hfd r (List.mem_cons_of_mem a hr)) o hm'

/-- Closed form of `ordersUpdateData`: which fields the existing-order update
writes and which it copies. -/
theorem ordersUpdateData_eq (orc : Oracles) (s : CheckoutSession) (O o : Order) :
    ordersUpdateData orc s O o =
      { o with
        paymentStatus := "paid", status := "confirmed", updatedAt := orc.now,
        total :=
          (match s.amount_total with
           | some amt => if amt ≠ 0 ∧ amt ≠ O.total then amt else o.total
           | none => o.total),
        shippingAddress :=
          (match s.shipping_details with
           | some sd => some (StoredAddress.fromShipping sd)
           | none =>
             match s.customer_details with
             | some cd => some (StoredAddress.fromCustomer cd)
             | none => o.shippingAddress) } := by
  unfold ordersUpdateData
  cases s.amount_total <;> cases s.shipping_details <;> cases s.customer_details <;>
    dsimp only <;>
    first
      | rfl
      | (split_ifs <;> rfl)

theorem ordersUpdateData_id (orc : Oracles) (s : CheckoutSession) (O o : Order) :
    (ordersUpdateData orc s O o).id = o.id := by
  rw [ordersUpdateData_eq]

theorem ordersUpdateData_shipmentId (orc : Oracles) (s : CheckoutSession) (O o : Order) :
    (ordersUpdateData orc s O o).shipmentId = o.shipmentId := by
  rw [ordersUpdateData_eq]

/-- When the stored order already carries a shipment reference, the
existing-order branch is exactly the single field update: no Shippo call. -/
theorem ordersExistingOrderBranch_of_shipmentId (L : Ledger) (orc : Oracles)
    (s : CheckoutSession) (oid : String) (O : Order) (sid : String)
    (h2 : findOrder L oid = some O) (hs : O.shipmentId = some sid) :
    ordersExistingOrderBranch L orc s oid =
      { status := 200, ledger := setOrder L oid (ordersUpdateData orc s O),
        shipmentCalls := [] } := by
  unfold ordersExistingOrderBranch
  rw [h2]
  have hsid : (ordersUpdateData orc s O O).shipmentId = some sid := by
    rw [ordersUpdateData_shipmentId, hs]
  simp [hsid]

/-! ### Concrete scenario data used by the claim theorems -/

def userA : User := { id := "userA", email := "a@example.com" }

def userB : User := { id := "userB", email := "b@example.com" }

/-- Two registered users, no orders yet. -/
def ledgerAB : Ledger := { orders := [], users := [userA, userB] }

def addrStub : CompressedAddr :=
  { name := "Al Ice", email := "a@example.com", phone := "555",
    street := "1 Main St", city := "Springfield", state := "IL",
    zip := "62701", country := "US" }

def shippingBlock : StripeShipping :=
  { name := some "Al Ice", phone := some "555", line1 := "1 Main St",
    line2 := none, city := "Springfield", state := "IL",
    postal_code := "62701", country := "US" }

def rate1 : Rate :=
  { objectId := "rate_1", carrier := "USPS", serviceName := "Priority",
    amount := 899, estimatedDays := 2 }

def compactPayload : CompressedData :=
  { total := 1000, notes := none, items := [], address := some addrStub }

/-- A deferred-creation `checkout.session.completed` event: no `orderId`,
a compact payload in `orderData`, `authenticatedUserId` of user A, but the
processor-reported customer email is user B's. -/
def deferredSession : CheckoutSession :=
  { id := "cs_1", payment_intent := some "pi_1", payment_status := "paid",
    amount_total := some 1000,
    customer_details := some { email := some "b@example.com", name := some "Bee" },
    shipping_details := none,
    shipping := some shippingBlock,
    metadata_orderId := none, metadata_isRetry := none,
    metadata_orderData := some (.parsed compactPayload),
    metadata_authenticatedUserId := some "userA",
    metadata_authenticatedUserEmail := some "a@example.com" }

def orc1 : Oracles :=
  { sessionsList := [], freshOrderId := "ord_1",
    ratesResult := .ok [rate1], createShipmentResult := .ok "shp_1", now := 1000 }

def orc2 : Oracles :=
  { sessionsList := [], freshOrderId := "ord_2",
    ratesResult := .ok [rate1], createShipmentResult := .ok "shp_2", now := 2000 }

def paidAddr : StoredAddress :=
  StoredAddress.structured
    { name := some "Al Ice", email := some "a@example.com",
      phone := "555", street1 := "1 Main St", street2 := none,
      city := "Springfield", state := "IL", zip := "62701", country := "US" }

/-- An order that is already `confirmed`/`paid`, with a shipment reference. -/
def paidOrder : Order :=
  { id := "ord_paid", userId := "userA", status := "confirmed",
    paymentStatus := "paid", total := 500, shippingAddress := some paidAddr,
    orderNotes := none, orderItems := [], shipmentId := some "shp_0",
    createdAt := 0, updatedAt := 0 }

def ledgerPaid : Ledger := { orders := [paidOrder], users := [userA] }

/-- A `checkout.session.completed` referencing the already-paid order, with a
session amount different from the stored total. -/
def replaySession : CheckoutSession :=
  { id := "cs_2", payment_intent := some "pi_2", payment_status := "paid",
    amount_total := some 999, customer_details := none,
    shipping_details := none, shipping := none,
    metadata_orderId := some "ord_paid", metadata_isRetry := none,
    metadata_orderData := none, metadata_authenticatedUserId := none,
    metadata_authenticatedUserEmail := none }

/-- A `checkout.session.completed` whose metadata references an order id that
is not in the ledger. -/
def ghostSession : CheckoutSession :=
  { id := "cs_3", payment_intent := none, payment_status := "paid",
    amount_total := none, customer_details := none,
    shipping_details := none, shipping := none,
    metadata_orderId := some "ghost", metadata_isRetry := none,
    metadata_orderData := none, metadata_authenticatedUserId := none,
    metadata_authenticatedUserEmail := none }

/-- An order still awaiting payment. -/
def pendingOrder : Order :=
  { id := "ord_pend", userId := "userA", status := "pending",
    paymentStatus := "pending", total := 500, shippingAddress := some paidAddr,
    orderNotes := none, orderItems := [], shipmentId := none,
    createdAt := 0, updatedAt := 0 }

def ledgerPending : Ledger := { orders := [pendingOrder], users := [userA] }

def failedPI : PaymentIntentInfo :=
  { id := "pi_9", metadata_orderId := some "ord_pend" }

/-! ### Claim theorems -/

/-- C1: the idempotency claim fails on the code.  Delivering the same
verified deferred-creation `checkout.session.completed` event twice — to
either webhook handler — creates a second order (each delivery runs
`prisma.order.create` with a fresh database id, with no event-id dedup and
no uniqueness guard) and issues a second shipment-creation call, so the end
state after two applications differs from the end state after one. -/
theorem C1_replay_of_deferred_event_creates_two_orders :
    (handlePaymentsEvent ledgerAB orc1
      (.checkoutSessionCompleted deferredSession)).ledger.orders.length = 1 ∧
    (handlePaymentsEvent ledgerAB orc1
      (.checkoutSessionCompleted deferredSession)).shipmentCalls.length = 1 ∧
    (handlePaymentsEvent
      (handlePaymentsEvent ledgerAB orc1
        (.checkoutSessionCompleted deferredSession)).ledger orc2
      (.checkoutSessionCompleted deferredSession)).ledger.orders.length = 2 ∧
    (handlePaymentsEvent
      (handlePaymentsEvent ledgerAB orc1
        (.checkoutSessionCompleted deferredSession)).ledger orc2
      (.checkoutSessionCompleted deferredSession)).shipmentCalls.length = 1 ∧
    (handlePaymentsEvent
      (handlePaymentsEvent ledgerAB orc1
        (.checkoutSessionCompleted deferredSession)).ledger orc2
      (.checkoutSessionCompleted deferredSession)).ledger ≠
      (handlePaymentsEvent ledgerAB orc1
        (.checkoutSessionCompleted deferredSession)).ledger ∧
    (handleOrdersEvent
      (handleOrdersEvent ledgerAB orc1
        (.checkoutSessionCompleted deferredSession)).ledger orc2
      (.checkoutSessionCompleted deferredSession)).ledger.orders.length = 2 := by
  decide

/-- C3: ownership isolation fails in the orders-router webhook.  For the same
deferred-creation event — metadata `authenticatedUserId` is user A, processor
customer email matches user B — the `order.routes.ts` webhook materializes
the order under user B (it resolves the owner by customer email), while the
`payments.routes.ts` webhook materializes it under user A. -/
theorem C3_orders_webhook_assigns_ownership_by_email :
    deferredSession.metadata_authenticatedUserId = some "userA" ∧
    deferredSession.customer_details.bind CustomerDetails.email
      = some "b@example.com" ∧
    userB.email = "b@example.com" ∧
    (handleOrdersEvent ledgerAB orc1
      (.checkoutSessionCompleted deferredSession)).ledger.orders.map Order.userId
      = ["userB"] ∧
    (handlePaymentsEvent ledgerAB orc1
      (.checkoutSessionCompleted deferredSession)).ledger.orders.map Order.userId
      = ["userA"] ∧
    ("userB" : String) ≠ "userA" := by
  decide

/-- C2 counterexample: processing a `checkout.session.completed` that
references an already-paid order does not leave all non-timestamp fields
unchanged — a session amount different from the stored total overwrites the
order's `total` (500 → 999 here). -/
theorem C2_cex_total_overwritten_on_paid_order :
    paidOrder.paymentStatus = "paid" ∧
    paidOrder.total = 500 ∧
    (findOrder (handleOrdersEvent ledgerPaid orc1
      (.checkoutSessionCompleted replaySession)).ledger "ord_paid").map Order.total
      = some 999 ∧
    (999 : Int) ≠ 500 := by
  decide

/-- C4 counterexample: for a `checkout.session.completed` whose metadata
references a non-existent order id, the `payments.routes.ts` webhook responds
500 (its unconditional `prisma.order.update` throws and is caught by the
generic handler), not 404. -/
theorem C4_cex_payments_webhook_responds_500_not_404 :
    findOrder ledgerAB "ghost" = none ∧
    (handlePaymentsEvent ledgerAB orc1
      (.checkoutSessionCompleted ghostSession)).status = 500 ∧
    (handlePaymentsEvent ledgerAB orc1
      (.checkoutSessionCompleted ghostSession)).status ≠ 404 ∧
    (handlePaymentsEvent ledgerAB orc1
      (.checkoutSessionCompleted ghostSession)).ledger = ledgerAB := by
  decide

/-- C7 counterexample: the `payments.routes.ts` webhook has no
`payment_intent.payment_failed` branch, so a payment-failed event that
references an existing order leaves that order's `paymentStatus` untouched
(`"pending"`, not `"failed"`). -/
theorem C7_cex_payments_webhook_ignores_payment_failed :
    findOrder ledgerPending "ord_pend" = some pendingOrder ∧
    pendingOrder.paymentStatus = "pending" ∧
    (handlePaymentsEvent ledgerPending orc1
      (.paymentIntentPaymentFailed failedPI)).ledger = ledgerPending ∧
    (findOrder (handlePaymentsEvent ledgerPending orc1
      (.paymentIntentPaymentFailed failedPI)).ledger "ord_pend").map
        Order.paymentStatus = some "pending" ∧
    ("pending" : String) ≠ "failed" := by
  decide

/-- C2 (amended): when the orders-router webhook processes a
`checkout.session.completed` for an order that is already paid and already
carries a shipment reference, it responds 200, issues no shipment call,
touches no other order and no user record, and rewrites exactly the fields of
its `updateData`: `paymentStatus`/`status` to their existing `paid`/
`confirmed` values, `updatedAt` to the current time, `total` only when the
session reports a truthy amount different from the stored total, and
`shippingAddress` only when the session carries shipping or customer details;
`userId`, `orderNotes`, `orderItems`, `createdAt` and `shipmentId` are
unchanged.  The payments-router webhook, by contrast, has no shipment-
reference guard: the same event makes it issue a shipment call whenever the
order has a shipping address and a rate is available. -/
theorem C2_paid_order_update_frame
    (L : Ledger) (orc : Oracles) (s : CheckoutSession) (oid : String)
    (O : Order) (sid : String)
    (h1 : jsTruthyStr s.metadata_orderId = some oid)
    (h2 : findOrder L oid = some O)
    (_hp : O.paymentStatus = "paid")
    (hs : O.shipmentId = some sid) :
    (handleOrdersEvent L orc (.checkoutSessionCompleted s)).status = 200 ∧
    (handleOrdersEvent L orc (.checkoutSessionCompleted s)).shipmentCalls = [] ∧
    (handleOrdersEvent L orc (.checkoutSessionCompleted s)).ledger.users = L.users ∧
    (∀ oid2, oid2 ≠ oid →
      findOrder (handleOrdersEvent L orc (.checkoutSessionCompleted s)).ledger oid2
        = findOrder L oid2) ∧
    findOrder (handleOrdersEvent L orc (.checkoutSessionCompleted s)).ledger oid
      = some { O with
          paymentStatus := "paid", status := "confirmed", updatedAt := orc.now,
          total :=
            (match s.amount_total with
             | some amt => if amt ≠ 0 ∧ amt ≠ O.total then amt else O.total
             | none => O.total),
          shippingAddress :=
            (match s.shipping_details with
             | some sd => some (StoredAddress.fromShipping sd)
             | none =>
               match s.customer_details with
               | some cd => some (StoredAddress.fromCustomer cd)
               | none => O.shippingAddress) } ∧
    (∀ (Lp : Ledger) (orcp : Oracles) (a : StoredAddress) (r : Rate) (rs : List Rate),
      findOrder Lp oid = some O → O.shippingAddress = some a →
      orcp.ratesResult = .ok (r :: rs) →
      (handlePaymentsEvent Lp orcp (.checkoutSessionCompleted s)).shipmentCalls ≠ []) := by
  have hfid : ∀ o, (ordersUpdateData orc s O o).id = o.id := ordersUpdateData_id orc s O
  have hdisp : handleOrdersEvent L orc (.checkoutSessionCompleted s)
      = ordersExistingOrderBranch L orc s oid := by
    simp only [handleOrdersEvent, h1]
  rw [hdisp, ordersExistingOrderBranch_of_shipmentId L orc s oid O sid h2 hs]
  refine ⟨rfl, rfl, rfl, ?_, ?_, ?_⟩
  · intro oid2 hne
    exact findOrder_setOrder_ne L oid oid2 _ hfid hne
  · show findOrder (setOrder L oid (ordersUpdateData orc s O)) oid = _
    rw [findOrder_setOrder_self L oid _ hfid, h2, Option.map_some',
      ordersUpdateData_eq]
  · intro Lp orcp a r rs hf ha hr
    have hpid : ∀ o : Order, (paidConfirmedPatch orcp.now o).id = o.id :=
      fun _ => rfl
    simp only [handlePaymentsEvent, h1, paymentsExistingOrderBranch, updateOrder, hf]
    rw [findOrder_setOrder_self Lp oid _ hpid, hf, Option.map_some']
    have haddr : (paidConfirmedPatch orcp.now O).shippingAddress = some a := ha
    simp only [haddr, shippoShipmentSection, hr]
    cases orcp.createShipmentResult <;> simp

/-- C4 (amended): for a `checkout.session.completed` whose metadata order id
does not exist in the ledger, the orders-router webhook responds 404 and
performs no ledger mutation, while the payments-router webhook responds 500
(its unconditional `prisma.order.update` throws into the generic catch),
also with no ledger mutation. -/
theorem C4_unknown_order_responses
    (L : Ledger) (orc : Oracles) (s : CheckoutSession) (oid : String)
    (h1 : jsTruthyStr s.metadata_orderId = some oid)
    (h2 : findOrder L oid = none) :
    handleOrdersEvent L orc (.checkoutSessionCompleted s)
      = { status := 404, ledger := L, shipmentCalls := [] } ∧
    handlePaymentsEvent L orc (.checkoutSessionCompleted s)
      = { status := 500, ledger := L, shipmentCalls := [] } := by
  constructor
  · simp only [handleOrdersEvent, h1, ordersExistingOrderBranch, h2]
  · simp only [handlePaymentsEvent, h1, paymentsExistingOrderBranch, updateOrder, h2]

/-- Witness for C4: instantiated on the concrete unknown-order session. -/
theorem C4_unknown_order_responses_witness :
    handleOrdersEvent ledgerAB orc1 (.checkoutSessionCompleted ghostSession)
      = { status := 404, ledger := ledgerAB, shipmentCalls := [] } ∧
    handlePaymentsEvent ledgerAB orc1 (.checkoutSessionCompleted ghostSession)
      = { status := 500, ledger := ledgerAB, shipmentCalls := [] } :=
  C4_unknown_order_responses ledgerAB orc1 ghostSession "ghost"
    (by decide) (by decide)

/-- C7 (amended): in the orders-router webhook a `payment_intent.payment_failed`
event that references an existing order sets exactly `paymentStatus := "failed"`
and `updatedAt` on that order (every other field, every other order, and the
user table unchanged) and responds 200; one carrying no order id is a 200
no-op.  The payments-router webhook has no payment-failed branch at all and
performs no mutation for any such event. -/
theorem C7_payment_failed_frame :
    (∀ (L : Ledger) (orc : Oracles) (pi : PaymentIntentInfo) (oid : String) (O : Order),
      jsTruthyStr pi.metadata_orderId = some oid →
      findOrder L oid = some O →
      (handleOrdersEvent L orc (.paymentIntentPaymentFailed pi)).status = 200 ∧
      (handleOrdersEvent L orc (.paymentIntentPaymentFailed pi)).shipmentCalls = [] ∧
      (handleOrdersEvent L orc (.paymentIntentPaymentFailed pi)).ledger.users = L.users ∧
      findOrder (handleOrdersEvent L orc (.paymentIntentPaymentFailed pi)).ledger oid
        = some (paymentFailedPatch orc.now O) ∧
      (∀ oid2, oid2 ≠ oid →
        findOrder (handleOrdersEvent L orc (.paymentIntentPaymentFailed pi)).ledger oid2
          = findOrder L oid2)) ∧
    (∀ (L : Ledger) (orc : Oracles) (pi : PaymentIntentInfo),
      jsTruthyStr pi.metadata_orderId = none →
      handleOrdersEvent L orc (.paymentIntentPaymentFailed pi)
        = { status := 200, ledger := L, shipmentCalls := [] }) ∧
    (∀ (L : Ledger) (orc : Oracles) (pi : PaymentIntentInfo),
      handlePaymentsEvent L orc (.paymentIntentPaymentFailed pi)
        = { status := 200, ledger := L, shipmentCalls := [] }) := by
  refine ⟨?_, ?_, ?_⟩
  · intro L orc pi oid O h1 h2
    have hfid : ∀ o, (paymentFailedPatch orc.now o).id = o.id := fun _ => rfl
    have hres : handleOrdersEvent L orc (.paymentIntentPaymentFailed pi)
        = ⟨200, setOrder L oid (paymentFailedPatch orc.now), []⟩ := by
      simp only [handleOrdersEvent, h1, updateOrder, h2]
    rw [hres]
    refine ⟨rfl, rfl, rfl, ?_, ?_⟩
    · show findOrder (setOrder L oid (paymentFailedPatch orc.now)) oid = _
      rw [findOrder_setOrder_self L oid _ hfid, h2, Option.map_some']
    · intro oid2 hne
      exact findOrder_setOrder_ne L oid oid2 _ hfid hne
  · intro L orc pi h1
    simp only [handleOrdersEvent, h1]
  · intro L orc pi
    rfl

/-- Witness for C7: the amended statement instantiated on the pending order
and the concrete payment-failed events. -/
theorem C7_payment_failed_frame_witness :
    findOrder (handleOrdersEvent ledgerPending orc1
        (.paymentIntentPaymentFailed failedPI)).ledger "ord_pend"
      = some (paymentFailedPatch orc1.now pendingOrder) ∧
    handleOrdersEvent ledgerPending orc1
        (.paymentIntentPaymentFailed { id := "pi_8", metadata_orderId := none })
      = { status := 200, ledger := ledgerPending, shipmentCalls := [] } ∧
    handlePaymentsEvent ledgerPending orc1
        (.paymentIntentPaymentFailed failedPI)
      = { status := 200, ledger := ledgerPending, shipmentCalls := [] } :=
  ⟨(C7_payment_failed_frame.1 ledgerPending orc1 failedPI "ord_pend" pendingOrder
      (by decide) (by decide)).2.2.2.1,
   C7_payment_failed_frame.2.1 ledgerPending orc1
      { id := "pi_8", metadata_orderId := none } (by decide),
   C7_payment_failed_frame.2.2 ledgerPending orc1 failedPI⟩

/-- The verification gate of either webhook handler rejects with 400 and no
mutation whenever the signature header is missing, the configured secret is
missing, or `constructEvent` throws; shared helper for the two handlers. -/
theorem webhookGate_fails_closed
    (process : Ledger → Oracles → StripeEvent → HandlerResult)
    (env : Env) (req : WebhookRequest)
    (verify : String → String → String → Option StripeEvent)
    (L : Ledger) (orc : Oracles)
    (hk : (jsTruthyStr env.stripeSecretKey).isSome) :
    ((jsTruthyStr req.sigHeader = none ∨ jsTruthyStr env.webhookSecret = none) →
      webhookGate process env req verify L orc = ⟨400, L, []⟩) ∧
    (∀ sig secret, jsTruthyStr req.sigHeader = some sig →
      jsTruthyStr env.webhookSecret = some secret →
      verify req.rawBody sig secret = none →
      webhookGate process env req verify L orc = ⟨400, L, []⟩) := by
  have hcfg : ¬ (jsTruthyStr env.stripeSecretKey).isNone = true := by
    cases h : jsTruthyStr env.stripeSecretKey
    · rw [h] at hk; cases hk
    · simp [h]
  constructor
  · intro h
    unfold webhookGate
    rw [if_neg hcfg]
    rcases h with h | h
    · rw [h]
    · rw [h]
      cases hsig : jsTruthyStr req.sigHeader <;> rfl
  · intro sig secret hsig hsec hv
    unfold webhookGate
    rw [if_neg hcfg, hsig, hsec]
    dsimp only
    rw [hv]

/-- C8: both webhook handlers fail closed.  With Stripe configured, a missing
`stripe-signature` header, a missing `STRIPE_WEBHOOK_SECRET`, or a raw body
whose signature does not verify all produce a 400 response with the ledger
untouched and no shipment call — event dispatch is never reached before
verification succeeds. -/
theorem C8_webhooks_fail_closed
    (env : Env) (req : WebhookRequest)
    (verify : String → String → String → Option StripeEvent)
    (L : Ledger) (orc : Oracles)
    (hk : (jsTruthyStr env.stripeSecretKey).isSome) :
    ((jsTruthyStr req.sigHeader = none ∨ jsTruthyStr env.webhookSecret = none) →
      ordersWebhook env req verify L orc = ⟨400, L, []⟩ ∧
      paymentsWebhook env req verify L orc = ⟨400, L, []⟩) ∧
    (∀ sig secret, jsTruthyStr req.sigHeader = some sig →
      jsTruthyStr env.webhookSecret = some secret →
      verify req.rawBody sig secret = none →
      ordersWebhook env req verify L orc = ⟨400, L, []⟩ ∧
      paymentsWebhook env req verify L orc = ⟨400, L, []⟩) := by
  constructor
  · intro h
    exact ⟨(webhookGate_fails_closed handleOrdersEvent env req verify L orc hk).1 h,
      (webhookGate_fails_closed handlePaymentsEvent env req verify L orc hk).1 h⟩
  · intro sig secret hsig hsec hv
    exact ⟨(webhookGate_fails_closed handleOrdersEvent env req verify L orc hk).2
        sig secret hsig hsec hv,
      (webhookGate_fails_closed handlePaymentsEvent env req verify L orc hk).2
        sig secret hsig hsec hv⟩

/-- Witness for C8: a missing-signature request and a bad-signature request
against a configured environment, on both handlers. -/
theorem C8_webhooks_fail_closed_witness :
    (ordersWebhook { stripeSecretKey := some "sk_test", webhookSecret := some "whsec_1" }
        { sigHeader := none, rawBody := "rawbody" }
        (fun _ _ _ => none) ledgerAB orc1 = ⟨400, ledgerAB, []⟩ ∧
      paymentsWebhook { stripeSecretKey := some "sk_test", webhookSecret := some "whsec_1" }
        { sigHeader := none, rawBody := "rawbody" }
        (fun _ _ _ => none) ledgerAB orc1 = ⟨400, ledgerAB, []⟩) ∧
    (ordersWebhook { stripeSecretKey := some "sk_test", webhookSecret := some "whsec_1" }
        { sigHeader := some "t=1,v1=bad", rawBody := "rawbody" }
        (fun _ _ _ => none) ledgerAB orc1 = ⟨400, ledgerAB, []⟩ ∧
      paymentsWebhook { stripeSecretKey := some "sk_test", webhookSecret := some "whsec_1" }
        { sigHeader := some "t=1,v1=bad", rawBody := "rawbody" }
        (fun _ _ _ => none) ledgerAB orc1 = ⟨400, ledgerAB, []⟩) :=
  ⟨(C8_webhooks_fail_closed
      { stripeSecretKey := some "sk_test", webhookSecret := some "whsec_1" }
      { sigHeader := none, rawBody := "rawbody" }
      (fun _ _ _ => none) ledgerAB orc1 (by decide)).1 (Or.inl (by decide)),
   (C8_webhooks_fail_closed
      { stripeSecretKey := some "sk_test", webhookSecret := some "whsec_1" }
      { sigHeader := some "t=1,v1=bad", rawBody := "rawbody" }
      (fun _ _ _ => none) ledgerAB orc1 (by decide)).2
      "t=1,v1=bad" "whsec_1" (by decide) (by decide) rfl⟩

/-- C10: `/retry-payment` creates a new checkout session only for an order
whose `paymentStatus` is `"failed"`: any existing order in another payment
status gets a 400 response with the ledger untouched, and on success the
order's `paymentStatus` is reset from `"failed"` to `"pending"` (a transition
absent from the spec's state machine), leaving every other field and every
other order unchanged. -/
theorem C10_retry_payment_guard :
    (∀ (env : Env) (L : Ledger) (orderId? : Option String) (oid : String)
       (O : Order) (csr : Except Unit String) (now : Int),
      (jsTruthyStr env.stripeSecretKey).isSome →
      jsTruthyStr orderId? = some oid →
      findOrder L oid = some O →
      O.paymentStatus ≠ "failed" →
      retryPayment env orderId? csr L now = { status := 400, ledger := L }) ∧
    (∀ (env : Env) (L : Ledger) (orderId? : Option String) (oid : String)
       (O : Order) (url : String) (now : Int),
      (jsTruthyStr env.stripeSecretKey).isSome →
      jsTruthyStr orderId? = some oid →
      findOrder L oid = some O →
      O.paymentStatus = "failed" →
      retryPayment env orderId? (.ok url) L now
        = { status := 200, ledger := setOrder L oid (retryPendingPatch now) } ∧
      findOrder (retryPayment env orderId? (.ok url) L now).ledger oid
        = some (retryPendingPatch now O) ∧
      (∀ oid2, oid2 ≠ oid →
        findOrder (retryPayment env orderId? (.ok url) L now).ledger oid2
          = findOrder L oid2)) := by
  constructor
  · intro env L orderId? oid O csr now hk h1 h2 hps
    have hcfg : ¬ (jsTruthyStr env.stripeSecretKey).isNone = true := by
      cases h : jsTruthyStr env.stripeSecretKey
      · rw [h] at hk; cases hk
      · simp [h]
    unfold retryPayment
    rw [if_neg hcfg, h1]
    dsimp only
    rw [h2]
    dsimp only
    rw [if_pos hps]
  · intro env L orderId? oid O url now hk h1 h2 hps
    have hcfg : ¬ (jsTruthyStr env.stripeSecretKey).isNone = true := by
      cases h : jsTruthyStr env.stripeSecretKey
      · rw [h] at hk; cases hk
      · simp [h]
    have hfid : ∀ o, (retryPendingPatch now o).id = o.id := fun _ => rfl
    have hres : retryPayment env orderId? (.ok url) L now
        = { status := 200, ledger := setOrder L oid (retryPendingPatch now) } := by
      unfold retryPayment
      rw [if_neg hcfg, h1]
      dsimp only
      rw [h2]
      dsimp only
      rw [if_neg (fun hc => hc hps)]
    refine ⟨hres, ?_, ?_⟩
    · rw [hres]
      show findOrder (setOrder L oid (retryPendingPatch now)) oid = _
      rw [findOrder_setOrder_self L oid _ hfid, h2, Option.map_some']
    · intro oid2 hne
      rw [hres]
      exact findOrder_setOrder_ne L oid oid2 _ hfid hne

/-- An order whose payment has failed, eligible for retry. -/
def failedOrder : Order :=
  { id := "ord_fail", userId := "userA", status := "pending",
    paymentStatus := "failed", total := 500, shippingAddress := some paidAddr,
    orderNotes := none, orderItems := [], shipmentId := none,
    createdAt := 0, updatedAt := 0 }

def ledgerFailed : Ledger := { orders := [failedOrder], users := [userA] }

/-- Witness for C10: a pending order is refused with 400; a failed order is
reset to pending. -/
theorem C10_retry_payment_guard_witness :
    retryPayment { stripeSecretKey := some "sk_test", webhookSecret := none }
        (some "ord_pend") (.ok "https://pay") ledgerPending 77
      = { status := 400, ledger := ledgerPending } ∧
    findOrder (retryPayment { stripeSecretKey := some "sk_test", webhookSecret := none }
        (some "ord_fail") (.ok "https://pay") ledgerFailed 77).ledger "ord_fail"
      = some (retryPendingPatch 77 failedOrder) :=
  ⟨C10_retry_payment_guard.1 { stripeSecretKey := some "sk_test", webhookSecret := none }
      ledgerPending (some "ord_pend") "ord_pend" pendingOrder (.ok "https://pay") 77
      (by decide) (by decide) (by decide) (by decide),
   (C10_retry_payment_guard.2 { stripeSecretKey := some "sk_test", webhookSecret := none }
      ledgerFailed (some "ord_fail") "ord_fail" failedOrder "https://pay" 77
      (by decide) (by decide) (by decide) (by decide)).2.1⟩

/-- Behaviour of the inline Shippo section for every oracle outcome: it never
changes the target order's `paymentStatus`/`status` (a success only writes
`shipmentId`), it makes no call when rates throw or come back empty, and any
call it makes uses the first returned rate and the given order id. -/
theorem shippoShipmentSection_findOrder (L : Ledger) (oid : String)
    (addr : StoredAddress) (orc : Oracles) (O : Order)
    (hfind : findOrder L oid = some O) :
    ((findOrder (shippoShipmentSection L oid addr orc).1 oid).map Order.paymentStatus
        = some O.paymentStatus ∧
      (findOrder (shippoShipmentSection L oid addr orc).1 oid).map Order.status
        = some O.status) ∧
    (orc.ratesResult = .ok [] → (shippoShipmentSection L oid addr orc).2 = []) ∧
    (∀ r rs, orc.ratesResult = .ok (r :: rs) →
      ∀ c ∈ (shippoShipmentSection L oid addr orc).2,
        c.rateId = r.objectId ∧ c.orderId = oid) := by
  have hsidp : ∀ sid o, (shipmentIdPatch sid o).id = o.id := fun _ _ => rfl
  unfold shippoShipmentSection
  cases hr : orc.ratesResult with
  | error e =>
    dsimp only
    refine ⟨⟨by rw [hfind, Option.map_some'], by rw [hfind, Option.map_some']⟩, fun h => by simp at h, fun r rs h => by simp at h⟩
  | ok rates =>
    cases rates with
    | nil =>
      dsimp only
      refine ⟨⟨by rw [hfind, Option.map_some'], by rw [hfind, Option.map_some']⟩, fun _ => rfl, fun r rs h => by simp at h⟩
    | cons r rest =>
      dsimp only
      cases hc : orc.createShipmentResult with
      | error e =>
        dsimp only
        refine ⟨⟨by rw [hfind, Option.map_some'], by rw [hfind, Option.map_some']⟩, fun h => by simp at h, ?_⟩
        intro r' rs' h c hcm
        simp only [Except.ok.injEq, List.cons.injEq] at h
        obtain ⟨rfl, -⟩ := h
        simp only [List.mem_singleton] at hcm
        subst hcm
        exact ⟨rfl, rfl⟩
      | ok sid =>
        dsimp only
        refine ⟨⟨?_, ?_⟩, fun h => by simp at h, ?_⟩
        · rw [findOrder_setOrder_self L oid _ (hsidp sid), hfind]
          simp [shipmentIdPatch]
        · rw [findOrder_setOrder_self L oid _ (hsidp sid), hfind]
          simp [shipmentIdPatch]
        · intro r' rs' h c hcm
          simp only [Except.ok.injEq, List.cons.injEq] at h
          obtain ⟨rfl, -⟩ := h
          simp only [List.mem_singleton] at hcm
          subst hcm
          exact ⟨rfl, rfl⟩

/-- The deferred-creation tail of the payments-router webhook: for every
oracle outcome the freshly created order stays `paid`/`confirmed`, an empty
rate list means no shipment call, and any call uses the first rate. -/
theorem paymentsDeferredShipment_spec (L : Ledger) (orc : Oracles) (user : User)
    (d : CompressedData) (A : StoredAddress)
    (hfresh : findOrder L orc.freshOrderId = none) :
    (findOrder (shippoShipmentSection
        (createOrder L (paymentsDeferredOrder orc user d A))
        (paymentsDeferredOrder orc user d A).id A orc).1 orc.freshOrderId).map
      Order.paymentStatus = some "paid" ∧
    (findOrder (shippoShipmentSection
        (createOrder L (paymentsDeferredOrder orc user d A))
        (paymentsDeferredOrder orc user d A).id A orc).1 orc.freshOrderId).map
      Order.status = some "confirmed" ∧
    (orc.ratesResult = .ok [] →
      (shippoShipmentSection (createOrder L (paymentsDeferredOrder orc user d A))
        (paymentsDeferredOrder orc user d A).id A orc).2 = []) ∧
    (∀ r rs, orc.ratesResult = .ok (r :: rs) →
      ∀ c ∈ (shippoShipmentSection (createOrder L (paymentsDeferredOrder orc user d A))
        (paymentsDeferredOrder orc user d A).id A orc).2, c.rateId = r.objectId) := by
  have hfindN : findOrder (createOrder L (paymentsDeferredOrder orc user d A))
      (paymentsDeferredOrder orc user d A).id
      = some (paymentsDeferredOrder orc user d A) :=
    findOrder_createOrder_of_fresh hfresh
  have hsec := shippoShipmentSection_findOrder
    (createOrder L (paymentsDeferredOrder orc user d A))
    (paymentsDeferredOrder orc user d A).id A orc _ hfindN
  exact ⟨hsec.1.1, hsec.1.2, hsec.2.1,
    fun r rs hr c hc => (hsec.2.2 r rs hr c hc).1⟩

/-- C9: shipment-side failures never affect the committed reconciliation.
For the orders-router existing-order path: whatever the rate-lookup and
shipment-creation oracles return, the webhook responds 200 and the order
stays `paid`/`confirmed`; an empty rate list yields no shipment call, and any
call made uses the first returned rate.  The same holds on the
payments-router deferred-creation path for the freshly materialized order. -/
theorem C9_shipment_trigger_isolation :
    (∀ (L : Ledger) (orc : Oracles) (s : CheckoutSession) (oid : String) (O : Order),
      jsTruthyStr s.metadata_orderId = some oid →
      findOrder L oid = some O →
      (handleOrdersEvent L orc (.checkoutSessionCompleted s)).status = 200 ∧
      (findOrder (handleOrdersEvent L orc (.checkoutSessionCompleted s)).ledger oid).map
          Order.paymentStatus = some "paid" ∧
      (findOrder (handleOrdersEvent L orc (.checkoutSessionCompleted s)).ledger oid).map
          Order.status = some "confirmed" ∧
      (orc.ratesResult = .ok [] →
        (handleOrdersEvent L orc (.checkoutSessionCompleted s)).shipmentCalls = []) ∧
      (∀ r rs, orc.ratesResult = .ok (r :: rs) →
        ∀ c ∈ (handleOrdersEvent L orc (.checkoutSessionCompleted s)).shipmentCalls,
          c.rateId = r.objectId)) ∧
    (∀ (L : Ledger) (orc : Oracles) (s : CheckoutSession) (d : CompressedData)
       (uid : String) (user : User) (sh : StripeShipping),
      jsTruthyStr s.metadata_orderId = none →
      s.metadata_orderData = some (.parsed d) →
      jsTruthyStr s.metadata_authenticatedUserId = some uid →
      findUserById L uid = some user →
      s.shipping = some sh →
      findOrder L orc.freshOrderId = none →
      (handlePaymentsEvent L orc (.checkoutSessionCompleted s)).status = 200 ∧
      (findOrder (handlePaymentsEvent L orc (.checkoutSessionCompleted s)).ledger
          orc.freshOrderId).map Order.paymentStatus = some "paid" ∧
      (findOrder (handlePaymentsEvent L orc (.checkoutSessionCompleted s)).ledger
          orc.freshOrderId).map Order.status = some "confirmed" ∧
      (orc.ratesResult = .ok [] →
        (handlePaymentsEvent L orc (.checkoutSessionCompleted s)).shipmentCalls = []) ∧
      (∀ r rs, orc.ratesResult = .ok (r :: rs) →
        ∀ c ∈ (handlePaymentsEvent L orc (.checkoutSessionCompleted s)).shipmentCalls,
          c.rateId = r.objectId)) := by
  constructor
  · intro L orc s oid O h1 h2
    have hid : O.id = oid := findOrder_eq_some_id h2
    have hfid := ordersUpdateData_id orc s O
    have hdisp : handleOrdersEvent L orc (.checkoutSessionCompleted s)
        = ordersExistingOrderBranch L orc s oid := by
      simp only [handleOrdersEvent, h1]
    have hfind1 : findOrder (setOrder L oid (ordersUpdateData orc s O)) oid
        = some (ordersUpdateData orc s O O) := by
      rw [findOrder_setOrder_self L oid _ hfid, h2, Option.map_some']
    have hps : (ordersUpdateData orc s O O).paymentStatus = "paid" := by
      rw [ordersUpdateData_eq]
    have hst : (ordersUpdateData orc s O O).status = "confirmed" := by
      rw [ordersUpdateData_eq]
    have hbid : (ordersUpdateData orc s O O).id = oid := by rw [hfid O, hid]
    rw [hdisp]
    unfold ordersExistingOrderBranch
    rw [h2]
    dsimp only
    by_cases hsh : (ordersUpdateData orc s O O).shipmentId = none
    · rw [if_pos hsh]
      cases haddr : (ordersUpdateData orc s O O).shippingAddress with
      | none =>
        refine ⟨rfl, ?_, ?_, fun _ => rfl, fun r rs hr c hc => absurd hc (by simp)⟩
        · show (findOrder (setOrder L oid (ordersUpdateData orc s O)) oid).map
            Order.paymentStatus = some "paid"
          rw [hfind1, Option.map_some', hps]
        · show (findOrder (setOrder L oid (ordersUpdateData orc s O)) oid).map
            Order.status = some "confirmed"
          rw [hfind1, Option.map_some', hst]
      | some addr =>
        rw [hbid]
        have hsec := shippoShipmentSection_findOrder
          (setOrder L oid (ordersUpdateData orc s O)) oid addr orc _ hfind1
        refine ⟨rfl, ?_, ?_, ?_, ?_⟩
        · show (findOrder (shippoShipmentSection
              (setOrder L oid (ordersUpdateData orc s O)) oid addr orc).1 oid).map
            Order.paymentStatus = some "paid"
          rw [hsec.1.1, hps]
        · show (findOrder (shippoShipmentSection
              (setOrder L oid (ordersUpdateData orc s O)) oid addr orc).1 oid).map
            Order.status = some "confirmed"
          rw [hsec.1.2, hst]
        · intro hr
          exact hsec.2.1 hr
        · intro r rs hr c hc
          exact (hsec.2.2 r rs hr c hc).1
    · rw [if_neg hsh]
      refine ⟨rfl, ?_, ?_, fun _ => rfl, fun r rs hr c hc => absurd hc (by simp)⟩
      · show (findOrder (setOrder L oid (ordersUpdateData orc s O)) oid).map
          Order.paymentStatus = some "paid"
        rw [hfind1, Option.map_some', hps]
      · show (findOrder (setOrder L oid (ordersUpdateData orc s O)) oid).map
          Order.status = some "confirmed"
        rw [hfind1, Option.map_some', hst]
  · intro L orc s d uid user sh h0 h1 h2 h3 h4 hfresh
    have hdisp : handlePaymentsEvent L orc (.checkoutSessionCompleted s)
        = paymentsDeferredBranch L orc s d := by
      simp only [handlePaymentsEvent, h0, h1]
    rw [hdisp]
    unfold paymentsDeferredBranch
    rw [h2]
    dsimp only
    rw [h3]
    dsimp only
    rw [h4]
    dsimp only
    refine ⟨rfl, ?_, ?_, ?_, ?_⟩
    · exact (paymentsDeferredShipment_spec L orc user d _ hfresh).1
    · exact (paymentsDeferredShipment_spec L orc user d _ hfresh).2.1
    · exact (paymentsDeferredShipment_spec L orc user d _ hfresh).2.2.1
    · exact (paymentsDeferredShipment_spec L orc user d _ hfresh).2.2.2

/-- Witness for C9: the isolation statement instantiated on the already-paid
order (orders path) and the deferred-creation event (payments path), under
the oracle that returns one rate and a successful shipment. -/
theorem C9_shipment_trigger_isolation_witness :
    (handleOrdersEvent ledgerPaid orc1
      (.checkoutSessionCompleted replaySession)).status = 200 ∧
    (findOrder (handlePaymentsEvent ledgerAB orc1
      (.checkoutSessionCompleted deferredSession)).ledger "ord_1").map
        Order.paymentStatus = some "paid" := by
  refine ⟨(C9_shipment_trigger_isolation.1 ledgerPaid orc1 replaySession
    "ord_paid" paidOrder (by decide) (by decide)).1, ?_⟩
  have h := C9_shipment_trigger_isolation.2 ledgerAB orc1 deferredSession
    compactPayload "userA" userA shippingBlock (by decide) rfl (by decide)
    (by decide) rfl (by decide)
  exact h.2.1

/-- C5: the metadata size bound.  For a checkout-session request carrying a
deferred order payload (no order id), when the serialized compact payload
exceeds 500 characters the request is rejected with 400 before
`stripe.checkout.sessions.create` is ever invoked; when it is within the
bound, the session is created and carries exactly that serialized payload in
its metadata. -/
theorem C5_metadata_size_bound
    (env : Env) (L : Ledger) (authUserId : String) (body : CheckoutBody)
    (sessionsCreate : Except Unit String) (u : User) (n : Nat) (od : OrderPayload)
    (hk : (jsTruthyStr env.stripeSecretKey).isSome)
    (hu : findUserById L authUserId = some u)
    (hi : body.itemsCount = some (n + 1))
    (ho : jsTruthyStr body.orderId = none)
    (hd : body.orderData = some od) :
    ((serializeCompressedData (compressOrderData od)).length > 500 →
      createCheckoutSession env L authUserId body sessionsCreate
        = { status := 400, stripeCalled := false,
            metadata_orderId := none, metadata_orderData := none }) ∧
    ((serializeCompressedData (compressOrderData od)).length ≤ 500 →
      (createCheckoutSession env L authUserId body sessionsCreate).stripeCalled
        = true ∧
      (createCheckoutSession env L authUserId body sessionsCreate).metadata_orderData
        = some (serializeCompressedData (compressOrderData od))) := by
  have hcfg : ¬ (jsTruthyStr env.stripeSecretKey).isNone = true := by
    cases h : jsTruthyStr env.stripeSecretKey
    · rw [h] at hk; cases hk
    · simp [h]
  have hpre : ∀ (csr : Except Unit String),
      createCheckoutSession env L authUserId body csr
        = (if (serializeCompressedData (compressOrderData od)).length > 500 then
            ({ status := 400, stripeCalled := false, metadata_orderId := none,
               metadata_orderData := none } : CreateSessionOutcome)
          else
            match csr with
            | .error _ =>
              { status := 500, stripeCalled := true,
                metadata_orderId := none,
                metadata_orderData := some (serializeCompressedData (compressOrderData od)) }
            | .ok _ =>
              { status := 200, stripeCalled := true,
                metadata_orderId := none,
                metadata_orderData := some (serializeCompressedData (compressOrderData od)) }) := by
    intro csr
    unfold createCheckoutSession
    rw [if_neg hcfg, hu]
    dsimp only
    rw [hi]
    dsimp only
    rw [ho]
    dsimp only
    rw [hd]
  constructor
  · intro hlen
    rw [hpre sessionsCreate, if_pos hlen]
  · intro hlen
    rw [hpre sessionsCreate, if_neg (by omega)]
    cases sessionsCreate <;> exact ⟨rfl, rfl⟩

def envC5 : Env := { stripeSecretKey := some "sk_test", webhookSecret := none }

/-- A deferred order payload whose compact serialization is 501 characters
(132 characters of structure plus a 369-character note). -/
def oversizedPayload : OrderPayload :=
  { total := 0, orderNotes := some (String.mk (List.replicate 369 'x')),
    orderItems := [], shippingAddress := none }

def oversizedBody : CheckoutBody :=
  { orderId := none, orderData := some oversizedPayload, itemsCount := some 1 }

/-- A deferred order payload whose compact serialization is 499 characters. -/
def okPayload : OrderPayload :=
  { total := 0, orderNotes := some (String.mk (List.replicate 367 'x')),
    orderItems := [], shippingAddress := none }

def okBody : CheckoutBody :=
  { orderId := none, orderData := some okPayload, itemsCount := some 1 }

/-- Witness for C5: a payload serializing to exactly 501 characters is
rejected before any Stripe call; one serializing to 499 characters reaches
session creation. -/
theorem C5_metadata_size_bound_witness :
    (serializeCompressedData (compressOrderData oversizedPayload)).length = 501 ∧
    createCheckoutSession envC5 ledgerAB "userA" oversizedBody (.ok "url")
      = { status := 400, stripeCalled := false,
          metadata_orderId := none, metadata_orderData := none } ∧
    (serializeCompressedData (compressOrderData okPayload)).length = 499 ∧
    (createCheckoutSession envC5 ledgerAB "userA" okBody (.ok "url")).stripeCalled
      = true := by
  refine ⟨by decide, ?_, by decide, ?_⟩
  · exact (C5_metadata_size_bound envC5 ledgerAB "userA" oversizedBody
      (.ok "url") userA 0 oversizedPayload (by decide) (by decide) rfl
      (by decide) rfl).1 (by decide)
  · exact ((C5_metadata_size_bound envC5 ledgerAB "userA" okBody
      (.ok "url") userA 0 okPayload (by decide) (by decide) rfl
      (by decide) rfl).2 (by decide)).1

/-- C6: the drift sweep scans exactly the orders with `paymentStatus =
"pending"` and resolves each according to the decision table; its three
returned counters are the numbers of scanned orders the table sends to each
action, every scanned order ends in the prescribed state, and every other
order and the user table are untouched.  (The third counter is surfaced
under the JSON key `noSessionCount` in the source.) -/
theorem C6_drift_sweep_decision_table
    (sessions : List CheckoutSession) (now : Int) (L : Ledger)
    (hnd : (L.orders.map Order.id).Nodup) :
    (fixPaymentStatus sessions now L).2.fixedCount
      = (L.orders.filter (fun o => o.paymentStatus = "pending")).countP
          (fun o => sweepSpecDecision sessions now o = SweepDecision.markPaid) ∧
    (fixPaymentStatus sessions now L).2.failedCount
      = (L.orders.filter (fun o => o.paymentStatus = "pending")).countP
          (fun o => sweepSpecDecision sessions now o = SweepDecision.markFailed) ∧
    (fixPaymentStatus sessions now L).2.noSessionCount
      = (L.orders.filter (fun o => o.paymentStatus = "pending")).countP
          (fun o => sweepSpecDecision sessions now o = SweepDecision.leavePending) ∧
    (∀ o ∈ L.orders.filter (fun o => o.paymentStatus = "pending"),
      findOrder (fixPaymentStatus sessions now L).1 o.id
        = some (sweepSpecApply sessions now o)) ∧
    (∀ oid, oid ∉ (L.orders.filter
        (fun o => o.paymentStatus = "pending")).map Order.id →
      findOrder (fixPaymentStatus sessions now L).1 oid = findOrder L oid) ∧
    (fixPaymentStatus sessions now L).1.users = L.users := by
  have hsub : (L.orders.filter (fun o => o.paymentStatus = "pending")).Sublist
      L.orders := List.filter_sublist L.orders
  have hndp : ((L.orders.filter
      (fun o => o.paymentStatus = "pending")).map Order.id).Nodup :=
    (hsub.map Order.id).nodup hnd
  have hfd : ∀ o ∈ L.orders.filter (fun o => o.paymentStatus = "pending"),
      findOrder L o.id = some o :=
    fun o hm => findOrder_of_mem_nodup hnd (List.mem_of_mem_filter hm)
  obtain ⟨h1, h2, h3⟩ := fixLoop_counts sessions now
    (L.orders.filter (fun o => o.paymentStatus = "pending")) L ⟨0, 0, 0⟩
  refine ⟨?_, ?_, ?_, ?_, ?_, ?_⟩
  · simpa using h1
  · simpa using h2
  · simpa using h3
  · exact fixLoop_findOrder_mem sessions now _ L ⟨0, 0, 0⟩ hndp hfd
  · intro oid hnm
    refine fixLoop_findOrder_not_mem sessions now _ L ⟨0, 0, 0⟩ oid ?_
    intro o hm hc
    exact hnm (hc ▸ List.mem_map_of_mem Order.id hm)
  · exact fixLoop_users sessions now _ L ⟨0, 0, 0⟩

/-- The three-order drift scenario: a 25-hour-old pending order with no
matching session, a pending order with a `paid` session, and a pending order
with an `unpaid` session. -/
def orderA : Order :=
  { id := "oA", userId := "userA", status := "pending",
    paymentStatus := "pending", total := 100, shippingAddress := none,
    orderNotes := none, orderItems := [], shipmentId := none,
    createdAt := 0, updatedAt := 0 }

def orderB : Order :=
  { id := "oB", userId := "userA", status := "pending",
    paymentStatus := "pending", total := 200, shippingAddress := none,
    orderNotes := none, orderItems := [], shipmentId := none,
    createdAt := 89000000, updatedAt := 89000000 }

def orderC : Order :=
  { id := "oC", userId := "userA", status := "pending",
    paymentStatus := "pending", total := 300, shippingAddress := none,
    orderNotes := none, orderItems := [], shipmentId := none,
    createdAt := 89000000, updatedAt := 89000000 }

def sessionB : CheckoutSession :=
  { id := "cs_B", payment_intent := none, payment_status := "paid",
    amount_total := none, customer_details := none,
    shipping_details := none, shipping := none,
    metadata_orderId := some "oB", metadata_isRetry := none,
    metadata_orderData := none, metadata_authenticatedUserId := none,
    metadata_authenticatedUserEmail := none }

def sessionC : CheckoutSession :=
  { id := "cs_C", payment_intent := none, payment_status := "unpaid",
    amount_total := none, customer_details := none,
    shipping_details := none, shipping := none,
    metadata_orderId := some "oC", metadata_isRetry := none,
    metadata_orderData := none, metadata_authenticatedUserId := none,
    metadata_authenticatedUserEmail := none }

def sweepLedger : Ledger :=
  { orders := [orderA, orderB, orderC], users := [userA] }

/-- `Date.now()` for the scenario: `orderA` is 25 hours old, the others one
hour short of the cutoff. -/
def sweepNow : Int := 90000000

/-- Witness for C6: the three-order scenario — 25h-old order without session,
order with a `paid` session, order with an `unpaid` session — sweeps to
`{fixedCount := 1, failedCount := 2, noSessionCount := 0}`, and the counts
agree with the decision-table theorem. -/
theorem C6_drift_sweep_decision_table_witness :
    (sweepLedger.orders.map Order.id).Nodup ∧
    (fixPaymentStatus [sessionB, sessionC] sweepNow sweepLedger).2
      = { fixedCount := 1, failedCount := 2, noSessionCount := 0 } ∧
    (fixPaymentStatus [sessionB, sessionC] sweepNow sweepLedger).2.fixedCount
      = (sweepLedger.orders.filter (fun o => o.paymentStatus = "pending")).countP
          (fun o => sweepSpecDecision [sessionB, sessionC] sweepNow o
            = SweepDecision.markPaid) :=
  ⟨by decide, by decide,
   (C6_drift_sweep_decision_table [sessionB, sessionC] sweepNow sweepLedger
      (by decide)).1⟩

/-- Witness for C2: the amended statement instantiated on the concrete
already-paid, already-shipped order. -/
theorem C2_paid_order_update_frame_witness :
    (handleOrdersEvent ledgerPaid orc1
      (.checkoutSessionCompleted replaySession)).status = 200 ∧
    (handleOrdersEvent ledgerPaid orc1
      (.checkoutSessionCompleted replaySession)).shipmentCalls = [] ∧
    (handlePaymentsEvent ledgerPaid orc1
      (.checkoutSessionCompleted replaySession)).shipmentCalls ≠ [] := by
  have h := C2_paid_order_update_frame ledgerPaid orc1 replaySession "ord_paid"
    paidOrder "shp_0" (by decide) (by decide) (by decide) (by decide)
  exact ⟨h.1, h.2.1,
    h.2.2.2.2.2 ledgerPaid orc1 paidAddr rate1 [] (by decide) (by decide) rfl⟩

end NathanBackend
